import Mathlib

/-
Verification of the purebornmvp backend (FastAPI + SQLAlchemy ERP) against its
natural-language specification.

Modelling conventions for the shallow embedding:
* Python Decimal / float amounts are modelled as exact rationals; the code only
  adds, subtracts, multiplies and divides values obtained from request payloads,
  so the exact-arithmetic model matches the Decimal computation.
* UUIDs are modelled as natural-number identifiers; fresh ids come from an
  explicit nextId counter in the database state.
* Calendar dates are (year, month, day) triples; no calendar arithmetic is used
  by the code under verification.
* Python strings are modelled as List Char so that strip / replace / slicing
  can be reasoned about structurally.
* Each router owns the tables it touches, so every router is embedded as a pure
  function over a record holding exactly those tables.
* Exceptions raised by the database driver at an await point are modelled by an
  explicit fault parameter where a claim is about error handling.
-/

namespace PureBorn

/-- Calendar date (year, month, day), as stored in the Date columns. -/
structure PDate where
  year : Nat
  month : Nat
  day : Nat
deriving DecidableEq, BEq, Repr, Inhabited

/-- The whitespace characters stripped by Python str.strip (ASCII subset). -/
def isPyWs (c : Char) : Bool :=
  c = ' ' || c = '\t' || c = '\n' || c = '\r' || c = '\x0b' || c = '\x0c'

/-- Python str.strip: drop whitespace from both ends. -/
def pyStrip (l : List Char) : List Char :=
  ((l.dropWhile isPyWs).reverse.dropWhile isPyWs).reverse

/-- Python s.strip().replace(" ", ""): the HSN normalisation in
get_gst_rate_from_hsn (app/utils/gst_lookup.py line 88). -/
def normalizeHsn (l : List Char) : List Char :=
  (pyStrip l).filter (fun c => c != ' ')

/-- HSN_GST_MAPPING from app/utils/gst_lookup.py lines 11-58. -/
def HSN_GST_MAPPING : List (List Char × ℚ) :=
  [("1507".toList, 5), ("1508".toList, 5), ("1509".toList, 5), ("1510".toList, 5),
   ("1511".toList, 5), ("1512".toList, 5), ("1513".toList, 5), ("1514".toList, 5),
   ("1515".toList, 5), ("1516".toList, 5),
   ("1001".toList, 0), ("1002".toList, 0), ("1003".toList, 0), ("1004".toList, 0),
   ("1005".toList, 0), ("1006".toList, 0), ("1007".toList, 0), ("1008".toList, 0),
   ("1901".toList, 5), ("1902".toList, 5), ("1904".toList, 5), ("1905".toList, 5),
   ("2201".toList, 18), ("2202".toList, 18), ("2203".toList, 18), ("2204".toList, 18),
   ("2205".toList, 18), ("2206".toList, 18), ("2207".toList, 18), ("2208".toList, 18),
   ("2209".toList, 18),
   ("8471".toList, 18), ("8517".toList, 18), ("8528".toList, 18),
   ("8703".toList, 28), ("8704".toList, 28),
   ("0".toList, 18)]

/-- The 2-digit category_map inside get_gst_rate_from_hsn
(app/utils/gst_lookup.py lines 104-112). -/
def CATEGORY_MAP_2 : List (List Char × ℚ) :=
  [("15".toList, 5), ("10".toList, 0), ("19".toList, 5), ("22".toList, 18),
   ("84".toList, 18), ("85".toList, 18), ("87".toList, 28)]

/-- Python dict lookup on an association list. -/
def lookupTable (t : List (List Char × ℚ)) (k : List Char) : Option ℚ :=
  (t.find? (fun p => p.1 == k)).map (·.2)

/-- get_gst_rate_from_hsn (app/utils/gst_lookup.py lines 74-117).
The argument is Option so that a missing (None) hsn_code is representable;
the falsy check on line 84 treats both None and the empty string as missing. -/
def get_gst_rate_from_hsn (hsn_code : Option (List Char)) : ℚ :=
  match hsn_code with
  | none => 18
  | some raw =>
    if raw.isEmpty then 18
    else
      let hsn := normalizeHsn raw
      match lookupTable HSN_GST_MAPPING hsn with
      | some r => r
      | none =>
        match (if 4 ≤ hsn.length then lookupTable HSN_GST_MAPPING (hsn.take 4) else none) with
        | some r => r
        | none =>
          match (if 2 ≤ hsn.length then lookupTable CATEGORY_MAP_2 (hsn.take 2) else none) with
          | some r => r
          | none => 18

/-- The lookup order exactly as the claim states it: exact normalized code,
then its first 4 digits, then the 2-digit category table, then 18, with no
length conditions. Written from the specification text, to be compared with
the source embedding get_gst_rate_from_hsn. -/
def gstRateSpec (hsn_code : Option (List Char)) : ℚ :=
  match hsn_code with
  | none => 18
  | some raw =>
    if raw.isEmpty then 18
    else
      let hsn := normalizeHsn raw
      match lookupTable HSN_GST_MAPPING hsn with
      | some r => r
      | none =>
        match lookupTable HSN_GST_MAPPING (hsn.take 4) with
        | some r => r
        | none =>
          match lookupTable CATEGORY_MAP_2 (hsn.take 2) with
          | some r => r
          | none => 18

lemma lookupTable_eq_none_of_length {t : List (List Char × ℚ)} {k : List Char}
    (h : ∀ p ∈ t, p.1.length ≠ k.length) : lookupTable t k = none := by
  induction t with
  | nil => rfl
  | cons p rest ih =>
    have hp : (p.1 == k) = false := by
      cases hb : p.1 == k with
      | false => rfl
      | true =>
        exact absurd (congrArg List.length (eq_of_beq hb)) (h p (List.mem_cons_self p rest))
    simp only [lookupTable, List.find?] at *
    rw [hp]
    exact ih (fun q hq => h q (List.mem_cons_of_mem p hq))

lemma category_map2_keys : ∀ p ∈ CATEGORY_MAP_2, p.1.length = 2 := by decide

/-- Every value in the HSN tables is nonnegative. -/
lemma gst_rate_nonneg (c : Option (List Char)) : 0 ≤ get_gst_rate_from_hsn c := by
  have htab : ∀ p ∈ HSN_GST_MAPPING, (0:ℚ) ≤ p.2 := by decide
  have hcat : ∀ p ∈ CATEGORY_MAP_2, (0:ℚ) ≤ p.2 := by decide
  have hlk : ∀ (t : List (List Char × ℚ)) (k : List Char) (r : ℚ),
      (∀ p ∈ t, (0:ℚ) ≤ p.2) → lookupTable t k = some r → 0 ≤ r := by
    intro t k r ht hfind
    simp only [lookupTable, Option.map_eq_some'] at hfind
    obtain ⟨p, hp, hpr⟩ := hfind
    exact hpr ▸ ht p (List.mem_of_find?_eq_some hp)
  cases c with
  | none => norm_num [get_gst_rate_from_hsn]
  | some raw =>
    simp only [get_gst_rate_from_hsn]
    by_cases he : raw.isEmpty <;> simp only [he, if_true, if_false]
    · norm_num
    · cases h1 : lookupTable HSN_GST_MAPPING (normalizeHsn raw) with
      | some r => exact hlk _ _ _ htab h1
      | none =>
        cases h2 : (if 4 ≤ (normalizeHsn raw).length then
            lookupTable HSN_GST_MAPPING ((normalizeHsn raw).take 4) else none) with
        | some r =>
          split at h2
          · exact hlk _ _ _ htab h2
          · exact absurd h2 (by simp)
        | none =>
          cases h3 : (if 2 ≤ (normalizeHsn raw).length then
              lookupTable CATEGORY_MAP_2 ((normalizeHsn raw).take 2) else none) with
          | some r =>
            split at h3
            · exact hlk _ _ _ hcat h3
            · exact absurd h3 (by simp)
          | none => norm_num

/-- C7: for every HSN code, the source lookup equals the fallback order stated
by the spec: exact normalized code, then its first four digits, then the
2-digit category rate, then the default 18; an empty or missing code yields 18,
and the function is total by construction. -/
theorem C7_gst_lookup_follows_spec_order (c : Option (List Char)) :
    get_gst_rate_from_hsn c = gstRateSpec c := by
  cases c with
  | none => rfl
  | some raw =>
    simp only [get_gst_rate_from_hsn, gstRateSpec]
    cases he : raw.isEmpty
    · simp only [Bool.false_eq_true, if_false]
      cases h1 : lookupTable HSN_GST_MAPPING (normalizeHsn raw) with
      | some r => rfl
      | none =>
        by_cases h4 : 4 ≤ (normalizeHsn raw).length
        · rw [if_pos h4]
          cases h2t : lookupTable HSN_GST_MAPPING ((normalizeHsn raw).take 4) with
          | some r => rfl
          | none =>
            by_cases h2 : 2 ≤ (normalizeHsn raw).length
            · rw [if_pos h2]
            · rw [if_neg h2]
              have ht2 : (normalizeHsn raw).take 2 = normalizeHsn raw :=
                List.take_of_length_le (by omega)
              rw [ht2]
              rw [lookupTable_eq_none_of_length
                (fun p hp => by rw [category_map2_keys p hp]; omega)]
        · rw [if_neg h4]
          have ht4 : (normalizeHsn raw).take 4 = normalizeHsn raw :=
            List.take_of_length_le (by omega)
          rw [ht4, h1]
          by_cases h2 : 2 ≤ (normalizeHsn raw).length
          · rw [if_pos h2]
          · rw [if_neg h2]
            have ht2 : (normalizeHsn raw).take 2 = normalizeHsn raw :=
              List.take_of_length_le (by omega)
            rw [ht2]
            rw [lookupTable_eq_none_of_length
              (fun p hp => by rw [category_map2_keys p hp]; omega)]
    · simp

/-! ## Day counters (app/routers/day_counters.py, app/models.py DayCounter) -/

/-- A row of the day_counters table (app/models.py lines 388-405). -/
structure DayCounterRow where
  date : PDate
  opening_cash_balance : ℚ
  sales_cash : ℚ
  sales_upi : ℚ
  sales_card : ℚ
  sales_credit : ℚ
  total_sales : ℚ
  total_expenses_cash : ℚ
  cash_hand_over : ℚ
  actual_closing_cash : ℚ
  system_closing_cash : ℚ
  difference : ℚ
  remarks : Option (List Char)
deriving DecidableEq, Repr

/-- DayCounterCreate (app/schemas.py lines 766-776). A field holding none was
not set in the request: pydantic gives it its default 0 in model_dump() but
drops it from model_dump(exclude_unset=True). -/
structure DayCounterCreate where
  date : PDate
  opening_cash_balance : Option ℚ
  sales_cash : Option ℚ
  sales_upi : Option ℚ
  sales_card : Option ℚ
  sales_credit : Option ℚ
  total_expenses_cash : Option ℚ
  cash_hand_over : Option ℚ
  actual_closing_cash : Option ℚ
  remarks : Option (Option (List Char))
deriving DecidableEq, Repr

/-- DayCounterUpdate (app/schemas.py lines 779-788): every field optional,
none meaning not set in the request. -/
structure DayCounterUpdate where
  opening_cash_balance : Option ℚ
  sales_cash : Option ℚ
  sales_upi : Option ℚ
  sales_card : Option ℚ
  sales_credit : Option ℚ
  total_expenses_cash : Option ℚ
  cash_hand_over : Option ℚ
  actual_closing_cash : Option ℚ
  remarks : Option (Option (List Char))
deriving DecidableEq, Repr

/-- The effective value of a payload field: the supplied value, or the
pydantic default 0 when unset. -/
def eff (o : Option ℚ) : ℚ := o.getD 0

/-- total_sales as computed by create_day_counter (lines 85-90) from the
request payload. -/
def dcPayloadTotalSales (d : DayCounterCreate) : ℚ :=
  eff d.sales_cash + eff d.sales_upi + eff d.sales_card + eff d.sales_credit

/-- system_closing_cash as computed by create_day_counter (lines 91-96) from
the request payload. -/
def dcPayloadSystemClosing (d : DayCounterCreate) : ℚ :=
  eff d.opening_cash_balance + eff d.sales_cash - eff d.total_expenses_cash -
    eff d.cash_hand_over

/-- difference as computed by create_day_counter (line 97). -/
def dcPayloadDifference (d : DayCounterCreate) : ℚ :=
  eff d.actual_closing_cash - dcPayloadSystemClosing d

/-- The setattr loop over model_dump(exclude_unset=True) in the existing-row
branch of create_day_counter (lines 101-103). -/
def applyCreatePatch (r : DayCounterRow) (d : DayCounterCreate) : DayCounterRow :=
  { r with
    date := d.date
    opening_cash_balance := d.opening_cash_balance.getD r.opening_cash_balance
    sales_cash := d.sales_cash.getD r.sales_cash
    sales_upi := d.sales_upi.getD r.sales_upi
    sales_card := d.sales_card.getD r.sales_card
    sales_credit := d.sales_credit.getD r.sales_credit
    total_expenses_cash := d.total_expenses_cash.getD r.total_expenses_cash
    cash_hand_over := d.cash_hand_over.getD r.cash_hand_over
    actual_closing_cash := d.actual_closing_cash.getD r.actual_closing_cash
    remarks := d.remarks.getD r.remarks }

/-- The new-row branch of create_day_counter (lines 114-124): full
model_dump() with defaults, plus the three computed fields. -/
def newRowFromCreate (d : DayCounterCreate) : DayCounterRow :=
  { date := d.date
    opening_cash_balance := eff d.opening_cash_balance
    sales_cash := eff d.sales_cash
    sales_upi := eff d.sales_upi
    sales_card := eff d.sales_card
    sales_credit := eff d.sales_credit
    total_sales := dcPayloadTotalSales d
    total_expenses_cash := eff d.total_expenses_cash
    cash_hand_over := eff d.cash_hand_over
    actual_closing_cash := eff d.actual_closing_cash
    system_closing_cash := dcPayloadSystemClosing d
    difference := dcPayloadDifference d
    remarks := d.remarks.getD none }

/-- POST /day-counters (create_day_counter, app/routers/day_counters.py lines
66-124). Returns the new table contents and the row that was written. -/
def create_day_counter (db : List DayCounterRow) (d : DayCounterCreate) :
    List DayCounterRow × DayCounterRow :=
  match db.find? (fun r => decide (r.date = d.date)) with
  | some row0 =>
    let upd := fun r =>
      { applyCreatePatch r d with
        total_sales := dcPayloadTotalSales d
        system_closing_cash := dcPayloadSystemClosing d
        difference := dcPayloadDifference d }
    (db.map fun r => if r.date = d.date then upd r else r, upd row0)
  | none =>
    (db ++ [newRowFromCreate d], newRowFromCreate d)

/-- The setattr loop in update_day_counter (lines 147-149). -/
def applyUpdatePatch (r : DayCounterRow) (u : DayCounterUpdate) : DayCounterRow :=
  { r with
    opening_cash_balance := u.opening_cash_balance.getD r.opening_cash_balance
    sales_cash := u.sales_cash.getD r.sales_cash
    sales_upi := u.sales_upi.getD r.sales_upi
    sales_card := u.sales_card.getD r.sales_card
    sales_credit := u.sales_credit.getD r.sales_credit
    total_expenses_cash := u.total_expenses_cash.getD r.total_expenses_cash
    cash_hand_over := u.cash_hand_over.getD r.cash_hand_over
    actual_closing_cash := u.actual_closing_cash.getD r.actual_closing_cash
    remarks := u.remarks.getD r.remarks }

/-- PUT /day-counters/{date} (update_day_counter, lines 127-172): 404 when the
date has no counter, otherwise it patches the fetched row and recomputes the
three derived fields from the patched row. -/
def update_day_counter (db : List DayCounterRow) (dt : PDate) (u : DayCounterUpdate) :
    Except Nat (List DayCounterRow × DayCounterRow) :=
  match db.find? (fun r => decide (r.date = dt)) with
  | none => .error 404
  | some row0 =>
    let r1 := applyUpdatePatch row0 u
    let sys := r1.opening_cash_balance + r1.sales_cash - r1.total_expenses_cash -
      r1.cash_hand_over
    let r2 := { r1 with
      total_sales := r1.sales_cash + r1.sales_upi + r1.sales_card + r1.sales_credit
      system_closing_cash := sys
      difference := r1.actual_closing_cash - sys }
    .ok (db.map (fun r => if r.date = dt then r2 else r), r2)

/-- DELETE /day-counters/{date} (lines 175-195): 404 when absent, otherwise
the fetched row is deleted. -/
def delete_day_counter (db : List DayCounterRow) (dt : PDate) :
    Except Nat (List DayCounterRow) :=
  match db.find? (fun r => decide (r.date = dt)) with
  | none => .error 404
  | some _ => .ok (db.eraseP (fun r => decide (r.date = dt)))

/-- The reconciliation invariant the spec states for a stored day counter. -/
def dcInvariant (r : DayCounterRow) : Prop :=
  r.total_sales = r.sales_cash + r.sales_upi + r.sales_card + r.sales_credit ∧
  r.system_closing_cash = r.opening_cash_balance + r.sales_cash -
    r.total_expenses_cash - r.cash_hand_over ∧
  r.difference = r.actual_closing_cash - r.system_closing_cash

instance (r : DayCounterRow) : Decidable (dcInvariant r) := by
  unfold dcInvariant; infer_instance

/-- A consistent pre-existing counter used as a counterexample state: a day
with 100 of cash sales and nothing else. -/
def dcRow100 : DayCounterRow :=
  { date := ⟨2025, 1, 1⟩
    opening_cash_balance := 0
    sales_cash := 100
    sales_upi := 0
    sales_card := 0
    sales_credit := 0
    total_sales := 100
    total_expenses_cash := 0
    cash_hand_over := 0
    actual_closing_cash := 0
    system_closing_cash := 100
    difference := -100
    remarks := none }

/-- A partial POST payload for the same date supplying only sales_upi. -/
def dcPartialPost : DayCounterCreate :=
  { date := ⟨2025, 1, 1⟩
    opening_cash_balance := none
    sales_cash := none
    sales_upi := some 50
    sales_card := none
    sales_credit := none
    total_expenses_cash := none
    cash_hand_over := none
    actual_closing_cash := none
    remarks := none }

/-- A POST payload for a date not yet in dcRow100's table. -/
def dcNewDatePost : DayCounterCreate :=
  { date := ⟨2025, 1, 2⟩
    opening_cash_balance := some 10
    sales_cash := some 20
    sales_upi := none
    sales_card := none
    sales_credit := none
    total_expenses_cash := some 5
    cash_hand_over := none
    actual_closing_cash := some 25
    remarks := none }

/-- A PUT payload supplying only sales_upi. -/
def dcUpd50 : DayCounterUpdate :=
  { opening_cash_balance := none
    sales_cash := none
    sales_upi := some 50
    sales_card := none
    sales_credit := none
    total_expenses_cash := none
    cash_hand_over := none
    actual_closing_cash := none
    remarks := none }

/-- C1 counterexample: a POST for an already-existing date that supplies only
sales_upi leaves a stored row with total_sales computed from the payload
defaults (50) while the stored sales_cash is still 100, so the stored row
violates total_sales = sales_cash + sales_upi + sales_card + sales_credit. -/
theorem C1_partial_post_breaks_invariant :
    (create_day_counter [dcRow100] dcPartialPost).1 =
      [(create_day_counter [dcRow100] dcPartialPost).2] ∧
    ¬ dcInvariant (create_day_counter [dcRow100] dcPartialPost).2 := by
  refine ⟨rfl, ?_⟩
  intro hinv
  have h1 := hinv.1
  have e1 : (create_day_counter [dcRow100] dcPartialPost).2.total_sales =
      (0 : ℚ) + 50 + 0 + 0 := rfl
  have e2 : (create_day_counter [dcRow100] dcPartialPost).2.sales_cash = (100 : ℚ) := rfl
  have e3 : (create_day_counter [dcRow100] dcPartialPost).2.sales_upi = (50 : ℚ) := rfl
  have e4 : (create_day_counter [dcRow100] dcPartialPost).2.sales_card = (0 : ℚ) := rfl
  have e5 : (create_day_counter [dcRow100] dcPartialPost).2.sales_credit = (0 : ℚ) := rfl
  rw [e1, e2, e3, e4, e5] at h1
  norm_num at h1

/-- C1 amended: every create or update writes derived fields that satisfy the
three formulas over the request payload's effective values; consequently the
stored-row invariant holds for a PUT, for a POST on a fresh date, and for a
POST that supplies every input field — but not for a partial POST on an
existing date. -/
theorem C1_day_counter_derived_fields :
    (∀ db d, (create_day_counter db d).2.total_sales = dcPayloadTotalSales d ∧
      (create_day_counter db d).2.system_closing_cash = dcPayloadSystemClosing d ∧
      (create_day_counter db d).2.difference = dcPayloadDifference d) ∧
    (∀ db d, (∀ r ∈ db, r.date ≠ d.date) →
      dcInvariant (create_day_counter db d).2) ∧
    (∀ db date oc sc su scd scr te ch ac rem,
      dcInvariant (create_day_counter db
        ⟨date, some oc, some sc, some su, some scd, some scr, some te, some ch,
         some ac, rem⟩).2) ∧
    (∀ db dt u out, update_day_counter db dt u = .ok out → dcInvariant out.2) := by
  refine ⟨?_, ?_, ?_, ?_⟩
  · intro db d
    unfold create_day_counter
    cases h : db.find? (fun r => decide (r.date = d.date)) with
    | some row0 => exact ⟨rfl, rfl, rfl⟩
    | none => exact ⟨rfl, rfl, rfl⟩
  · intro db d hfresh
    have h : db.find? (fun r => decide (r.date = d.date)) = none :=
      List.find?_eq_none.mpr (fun r hr => by simpa using hfresh r hr)
    unfold create_day_counter
    rw [h]
    refine ⟨rfl, rfl, rfl⟩
  · intro db date oc sc su scd scr te ch ac rem
    unfold create_day_counter
    cases h : db.find? (fun r => decide (r.date = date)) with
    | some row0 => exact ⟨rfl, rfl, rfl⟩
    | none => exact ⟨rfl, rfl, rfl⟩
  · intro db dt u out hok
    unfold update_day_counter at hok
    cases h : db.find? (fun r => decide (r.date = dt)) with
    | none => rw [h] at hok; exact absurd hok (by simp)
    | some row0 =>
      rw [h] at hok
      cases hok
      exact ⟨rfl, rfl, rfl⟩

/-- Witness for C1_day_counter_derived_fields at concrete inputs. -/
theorem C1_day_counter_derived_fields_witness :
    dcInvariant (create_day_counter [dcRow100] dcNewDatePost).2 ∧
    dcInvariant ((update_day_counter [dcRow100] ⟨2025, 1, 1⟩ dcUpd50).toOption.getD
      ([], dcRow100)).2 := by
  refine ⟨C1_day_counter_derived_fields.2.1 [dcRow100] dcNewDatePost (by decide), ?_⟩
  exact C1_day_counter_derived_fields.2.2.2 [dcRow100] ⟨2025, 1, 1⟩ dcUpd50 _ rfl

/-- The day-counter operations reachable through the router. -/
inductive DCOp where
  | create (d : DayCounterCreate)
  | put (dt : PDate) (u : DayCounterUpdate)
  | del (dt : PDate)

/-- One router call applied to the table (failed calls leave it unchanged). -/
def applyDCOp (db : List DayCounterRow) : DCOp → List DayCounterRow
  | .create d => (create_day_counter db d).1
  | .put dt u =>
    match update_day_counter db dt u with
    | .ok out => out.1
    | .error _ => db
  | .del dt =>
    match delete_day_counter db dt with
    | .ok db2 => db2
    | .error _ => db

/-- A sequence of router calls applied to the table. -/
def applyDCOps (ops : List DCOp) (db : List DayCounterRow) : List DayCounterRow :=
  ops.foldl applyDCOp db

lemma create_dates_of_found {db : List DayCounterRow} {d : DayCounterCreate} {row0}
    (h : db.find? (fun r => decide (r.date = d.date)) = some row0) :
    ((create_day_counter db d).1).map (·.date) = db.map (·.date) := by
  unfold create_day_counter
  rw [h]
  simp only [List.map_map]
  apply List.map_congr_left
  intro r _
  by_cases hr : r.date = d.date
  · simp [hr, applyCreatePatch]
  · simp [hr]

lemma update_dates {db : List DayCounterRow} {dt u out}
    (h : update_day_counter db dt u = .ok out) :
    out.1.map (·.date) = db.map (·.date) := by
  unfold update_day_counter at h
  cases hf : db.find? (fun r => decide (r.date = dt)) with
  | none => rw [hf] at h; exact absurd h (by simp)
  | some row0 =>
    rw [hf] at h
    cases h
    simp only [List.map_map]
    apply List.map_congr_left
    intro r _
    have hrow0 : row0.date = dt := by simpa using List.find?_some hf
    by_cases hr : r.date = dt
    · simp [hr, applyUpdatePatch, hrow0]
    · simp [hr]

lemma nodup_dates_applyDCOp (db : List DayCounterRow) (op : DCOp)
    (h : (db.map (·.date)).Nodup) : ((applyDCOp db op).map (·.date)).Nodup := by
  cases op with
  | create d =>
    cases hf : db.find? (fun r => decide (r.date = d.date)) with
    | some row0 =>
      show ((create_day_counter db d).1.map (·.date)).Nodup
      rw [create_dates_of_found hf]
      exact h
    | none =>
      have hfresh : ∀ r ∈ db, r.date ≠ d.date := by
        intro r hr
        have := List.find?_eq_none.mp hf r hr
        simpa using this
      show ((create_day_counter db d).1.map (·.date)).Nodup
      unfold create_day_counter
      rw [hf]
      simp only [List.map_append, List.map_cons, List.map_nil]
      rw [List.nodup_append]
      refine ⟨h, List.nodup_singleton _, ?_⟩
      intro x hx hx1
      simp only [List.mem_map] at hx
      obtain ⟨r, hr, hrx⟩ := hx
      simp only [List.mem_singleton] at hx1
      exact hfresh r hr (hrx.trans hx1)
  | put dt u =>
    cases hu : update_day_counter db dt u with
    | ok out =>
      have : applyDCOp db (.put dt u) = out.1 := by
        simp only [applyDCOp, hu]
      rw [this, update_dates hu]
      exact h
    | error e =>
      have : applyDCOp db (.put dt u) = db := by
        simp only [applyDCOp, hu]
      rw [this]
      exact h
  | del dt =>
    cases hd : delete_day_counter db dt with
    | error e =>
      have : applyDCOp db (.del dt) = db := by
        simp only [applyDCOp, hd]
      rw [this]
      exact h
    | ok db2 =>
      have hstep : applyDCOp db (.del dt) = db2 := by
        simp only [applyDCOp, hd]
      rw [hstep]
      unfold delete_day_counter at hd
      cases hf : db.find? (fun r => decide (r.date = dt)) with
      | none => rw [hf] at hd; exact absurd hd (by simp)
      | some row0 =>
        rw [hf] at hd
        cases hd
        exact h.sublist ((List.eraseP_sublist db).map (·.date))

lemma nodup_dates_applyDCOps (ops : List DCOp) :
    ∀ db, (db.map (·.date)).Nodup → ((applyDCOps ops db).map (·.date)).Nodup := by
  induction ops with
  | nil => intro db h; exact h
  | cons op rest ih =>
    intro db h
    exact ih _ (nodup_dates_applyDCOp db op h)

/-- C5: starting from an empty table, any sequence of day-counter router calls
leaves at most one row per date; moreover a POST for a date that already has a
counter keeps the table's dates (and hence its size) unchanged, updating in
place instead of inserting. -/
theorem C5_day_counter_dates_unique :
    (∀ ops : List DCOp, ((applyDCOps ops []).map (·.date)).Nodup) ∧
    (∀ db (d : DayCounterCreate), d.date ∈ db.map (·.date) →
      ((create_day_counter db d).1).map (·.date) = db.map (·.date)) := by
  constructor
  · intro ops
    exact nodup_dates_applyDCOps ops [] (by simp)
  · intro db d hmem
    simp only [List.mem_map] at hmem
    obtain ⟨r, hr, hrd⟩ := hmem
    cases hf : db.find? (fun r => decide (r.date = d.date)) with
    | some row0 => exact create_dates_of_found hf
    | none =>
      have := List.find?_eq_none.mp hf r hr
      simp only [decide_eq_true_eq] at this
      exact absurd hrd this

/-- Witness for C5_day_counter_dates_unique at a concrete table and payload. -/
theorem C5_day_counter_dates_unique_witness :
    dcPartialPost.date ∈ [dcRow100].map (·.date) ∧
    ((create_day_counter [dcRow100] dcPartialPost).1).map (·.date) =
      [dcRow100].map (·.date) :=
  have hmem : dcPartialPost.date ∈ [dcRow100].map (·.date) :=
    List.mem_map.mpr ⟨dcRow100, List.mem_singleton.mpr rfl, rfl⟩
  ⟨hmem, C5_day_counter_dates_unique.2 [dcRow100] dcPartialPost hmem⟩

/-! ## Sales (app/routers/sales.py, app/models.py Sale and SaleItem) -/

/-- A row of products_new (app/models.py lines 78-88), restricted to the
columns create_sale reads. -/
structure ProductRec where
  id : Nat
  hsn_code : List Char
deriving DecidableEq, Repr

/-- A row of product_variants (app/models.py lines 96-110), restricted to the
columns the sales router reads. -/
structure VariantRec where
  id : Nat
  product_id : Nat
  variant_name : List Char
  mrp : Option ℚ
  selling_price : Option ℚ
  is_active : Bool
deriving DecidableEq, Repr

/-- A row of sales_new (app/models.py lines 228-259), restricted to the
columns the sales router writes. -/
structure SaleRow where
  id : Nat
  invoice_number : Option (List Char)
  invoice_date : PDate
  invoice_time : Option (List Char)
  customer_id : Option Nat
  channel : Option (List Char)
  total_amount : ℚ
  discount_amount : ℚ
  tax_amount : ℚ
  net_amount : ℚ
  amount_cash : ℚ
  amount_upi : ℚ
  amount_card : ℚ
  amount_credit : ℚ
  total_paid : ℚ
  balance_due : ℚ
  remarks : Option (List Char)
deriving DecidableEq, Repr, Inhabited

/-- A row of sale_items_new (app/models.py lines 266-277). -/
structure SaleItemRow where
  sale_id : Nat
  product_variant_id : Nat
  quantity : ℚ
  unit_price : ℚ
  line_total : ℚ
  gst_rate : ℚ
  gst_amount : ℚ
  taxable_value : ℚ
deriving DecidableEq, Repr

/-- The tables touched by the sales router, with a counter for fresh ids. -/
structure SalesDB where
  products : List ProductRec
  variants : List VariantRec
  sales : List SaleRow
  saleItems : List SaleItemRow
  nextId : Nat
deriving Repr

/-- SaleItemNewCreate (app/schemas.py lines 571-573). -/
structure SaleItemNewCreate where
  product_variant_id : Nat
  quantity : ℚ
deriving DecidableEq, Repr

/-- SaleNewCreate (app/schemas.py lines 594-606). -/
structure SaleNewCreate where
  invoice_number : Option (List Char)
  invoice_date : PDate
  invoice_time : Option (List Char)
  customer_id : Option Nat
  channel : Option (List Char)
  items : List SaleItemNewCreate
  discount_amount : ℚ
  amount_cash : ℚ
  amount_upi : ℚ
  amount_card : ℚ
  amount_credit : ℚ
  remarks : Option (List Char)
deriving Repr

/-- variant.selling_price or variant.mrp or Decimal(0) (sales.py line 84):
Python or yields the first truthy operand, and both None and 0 are falsy. -/
def pyPrice (v : VariantRec) : ℚ :=
  match v.selling_price with
  | some p =>
    if p ≠ 0 then p
    else match v.mrp with
      | some m => if m ≠ 0 then m else 0
      | none => 0
  | none =>
    match v.mrp with
    | some m => if m ≠ 0 then m else 0
    | none => 0

/-- The per-item dictionary built by the loops in create_sale (lines 104-112)
and update_sale (lines 301-309). -/
structure SaleItemData where
  product_variant_id : Nat
  quantity : ℚ
  unit_price : ℚ
  line_total : ℚ
  gst_rate : ℚ
  gst_amount : ℚ
  taxable_value : ℚ
deriving DecidableEq, Repr

def findVariant (db : SalesDB) (i : Nat) : Option VariantRec :=
  db.variants.find? (fun v => decide (v.id = i))

def findProduct (db : SalesDB) (i : Nat) : Option ProductRec :=
  db.products.find? (fun p => decide (p.id = i))

/-- The variants fetched by the id-set query (create_sale lines 49-54): each
variant row whose id occurs among the requested item ids, once per row. -/
def fetchedVariants (db : SalesDB) (items : List SaleItemNewCreate) : List VariantRec :=
  db.variants.filter (fun v => (items.map (·.product_variant_id)).contains v.id)

/-- The length check on line 56: the fetch must return as many rows as there
are items (it fails on an unknown id and also on duplicate item ids). -/
def variantsMissing (db : SalesDB) (items : List SaleItemNewCreate) : Bool :=
  (fetchedVariants db items).length != items.length

/-- The active check on lines 66-73. -/
def anyInactive (db : SalesDB) (items : List SaleItemNewCreate) : Bool :=
  (fetchedVariants db items).any (fun v => !v.is_active)

/-- One pass of the item loop shared by create_sale (lines 80-112) and the
items branch of update_sale (lines 279-309): resolve price, look up the GST
rate from the product's HSN code, and compute line totals. A missing dict or
relationship hit inside the loop would surface as a non-HTTP exception and
become a 500; both are unreachable after validation. -/
def processSaleItem (db : SalesDB) (it : SaleItemNewCreate) : Except Nat SaleItemData :=
  match findVariant db it.product_variant_id with
  | none => .error 500
  | some v =>
    let unit_price := pyPrice v
    if unit_price = 0 then .error 400
    else
      match findProduct db v.product_id with
      | none => .error 500
      | some p =>
        let gst_rate := get_gst_rate_from_hsn (some p.hsn_code)
        let taxable_value := unit_price * it.quantity
        let gst_amount := if 0 < gst_rate then taxable_value * (gst_rate / 100) else 0
        let line_total := taxable_value + gst_amount
        .ok { product_variant_id := v.id
              quantity := it.quantity
              unit_price := unit_price
              line_total := line_total
              gst_rate := gst_rate
              gst_amount := gst_amount
              taxable_value := taxable_value }

/-- The whole item loop: process the items in order, stopping at the first
HTTP error, collecting the per-item dictionaries. -/
def processSaleItems (db : SalesDB) : List SaleItemNewCreate → Except Nat (List SaleItemData)
  | [] => .ok []
  | it :: rest =>
    match processSaleItem db it with
    | .error st => .error st
    | .ok d =>
      match processSaleItems db rest with
      | .error st => .error st
      | .ok ds => .ok (d :: ds)

/-- total_amount accumulated on line 101: the sum of the taxable values. -/
def saleTotalAmount (itemsData : List SaleItemData) : ℚ :=
  (itemsData.map (·.taxable_value)).sum

/-- total_tax accumulated on line 102: the sum of the GST amounts. -/
def saleTotalTax (itemsData : List SaleItemData) : ℚ :=
  (itemsData.map (·.gst_amount)).sum

/-- invoice_number is None or blank after strip (sales.py line 129). -/
def isBlankOpt (s : Option (List Char)) : Bool :=
  match s with
  | none => true
  | some l => (pyStrip l).isEmpty

/-- Python str.zfill: left-pad with zeros to the given width. -/
def zfill (w : Nat) (s : List Char) : List Char :=
  List.replicate (w - s.length) '0' ++ s

/-- The decimal digits of a natural number. -/
def natDigits (n : Nat) : List Char := (Nat.repr n).toList

/-- date.strftime of the invoice date as YYYYMMDD (line 138). -/
def fmtYmd (d : PDate) : List Char :=
  zfill 4 (natDigits d.year) ++ zfill 2 (natDigits d.month) ++ zfill 2 (natDigits d.day)

/-- The auto-generated invoice number (lines 130-138): count the sales stored
for the invoice date and format INV-YYYYMMDD-NNN. -/
def genInvoiceNumber (db : SalesDB) (d : PDate) : List Char :=
  let today_count := (db.sales.filter (fun s => decide (s.invoice_date = d))).length
  "INV-".toList ++ fmtYmd d ++ "-".toList ++ zfill 3 (natDigits (today_count + 1))

/-- The Sale record constructed on lines 142-159. -/
def mkSaleRow (db : SalesDB) (req : SaleNewCreate) (itemsData : List SaleItemData) :
    SaleRow :=
  let total_amount := saleTotalAmount itemsData
  let total_tax := saleTotalTax itemsData
  let net_amount := total_amount + total_tax - req.discount_amount
  let total_paid := req.amount_cash + req.amount_upi + req.amount_card
  { id := db.nextId
    invoice_number := some (if isBlankOpt req.invoice_number then
      genInvoiceNumber db req.invoice_date else req.invoice_number.getD [])
    invoice_date := req.invoice_date
    invoice_time := req.invoice_time
    customer_id := req.customer_id
    channel := req.channel
    total_amount := total_amount
    discount_amount := req.discount_amount
    tax_amount := total_tax
    net_amount := net_amount
    amount_cash := req.amount_cash
    amount_upi := req.amount_upi
    amount_card := req.amount_card
    amount_credit := req.amount_credit
    total_paid := total_paid
    balance_due := net_amount - total_paid
    remarks := req.remarks }

/-- The SaleItem record added for each item dictionary (lines 164-166). -/
def saleItemRowOf (sid : Nat) (d : SaleItemData) : SaleItemRow :=
  { sale_id := sid
    product_variant_id := d.product_variant_id
    quantity := d.quantity
    unit_price := d.unit_price
    line_total := d.line_total
    gst_rate := d.gst_rate
    gst_amount := d.gst_amount
    taxable_value := d.taxable_value }

/-- A database-driver exception injected at an await point inside the try
block of create_sale: before the commit on line 168, or after it during the
refresh calls on lines 169-174 (where the rollback on line 181 is a no-op). -/
inductive SaleFault where
  | beforeCommit
  | afterCommit
deriving DecidableEq, Repr

/-- POST /sales (create_sale, app/routers/sales.py lines 27-185): validation,
totals, invoice generation, persistence, and the try/except wrapper that maps
any non-HTTP exception to a rollback plus HTTP 500. -/
def create_sale (db : SalesDB) (req : SaleNewCreate) (fault : Option SaleFault) :
    SalesDB × Except Nat SaleRow :=
  if req.items.isEmpty then (db, .error 400)
  else if variantsMissing db req.items then (db, .error 404)
  else if anyInactive db req.items then (db, .error 400)
  else
    match processSaleItems db req.items with
    | .error st => (db, .error st)
    | .ok itemsData =>
      let sale := mkSaleRow db req itemsData
      let db2 : SalesDB :=
        { db with
          sales := db.sales ++ [sale]
          saleItems := db.saleItems ++ itemsData.map (saleItemRowOf db.nextId)
          nextId := db.nextId + 1 }
      match fault with
      | some .beforeCommit => (db, .error 500)
      | some .afterCommit => (db2, .error 500)
      | none => (db2, .ok sale)

/-- Modelled from the spec: the pydantic class SaleNewUpdate is imported by
app/routers/sales.py line 18 but is missing from app/schemas.py in this
snapshot; its shape is reconstructed from the keys update_sale reads out of
model_dump(exclude_unset=True) on lines 248-371. Every field is optional;
an outer none means the field was not set in the request. -/
structure SaleNewUpdate where
  invoice_number : Option (Option (List Char))
  invoice_date : Option PDate
  invoice_time : Option (Option (List Char))
  customer_id : Option (Option Nat)
  channel : Option (Option (List Char))
  items : Option (List SaleItemNewCreate)
  discount_amount : Option ℚ
  amount_cash : Option ℚ
  amount_upi : Option ℚ
  amount_card : Option ℚ
  amount_credit : Option ℚ
  remarks : Option (Option (List Char))
deriving Repr

/-- The field-by-field header updates of update_sale (lines 354-371),
including the recomputation of net_amount and balance_due when the discount
changed but the items key was absent from the request. -/
def applyHeaderUpdates (s0 : SaleRow) (u : SaleNewUpdate) : SaleRow :=
  let s1 := match u.invoice_number with
    | some v => { s0 with invoice_number := v }
    | none => s0
  let s2 := match u.invoice_date with
    | some v => { s1 with invoice_date := v }
    | none => s1
  let s3 := match u.invoice_time with
    | some v => { s2 with invoice_time := v }
    | none => s2
  let s4 := match u.customer_id with
    | some v => { s3 with customer_id := v }
    | none => s3
  let s5 := match u.channel with
    | some v => { s4 with channel := v }
    | none => s4
  let s6 := match u.discount_amount, u.items with
    | some dv, none =>
      let net := s5.total_amount + s5.tax_amount - dv
      { s5 with
        discount_amount := dv
        net_amount := net
        balance_due := net - s5.total_paid }
    | _, _ => s5
  match u.remarks with
  | some v => { s6 with remarks := v }
  | none => s6

/-- The recomputation of all totals in the items branch of update_sale
(lines 316-337). -/
def mkUpdSaleItemsRow (sale0 : SaleRow) (u : SaleNewUpdate)
    (itemsData : List SaleItemData) : SaleRow :=
  let total_amount := saleTotalAmount itemsData
  let total_tax := saleTotalTax itemsData
  let discount_amount := u.discount_amount.getD sale0.discount_amount
  let net_amount := total_amount + total_tax - discount_amount
  let amount_cash := u.amount_cash.getD sale0.amount_cash
  let amount_upi := u.amount_upi.getD sale0.amount_upi
  let amount_card := u.amount_card.getD sale0.amount_card
  let amount_credit := u.amount_credit.getD sale0.amount_credit
  let total_paid := amount_cash + amount_upi + amount_card
  { sale0 with
    total_amount := total_amount
    discount_amount := discount_amount
    tax_amount := total_tax
    net_amount := net_amount
    amount_cash := amount_cash
    amount_upi := amount_upi
    amount_card := amount_card
    amount_credit := amount_credit
    total_paid := total_paid
    balance_due := net_amount - total_paid }

/-- The payment-only recomputation in the header branch of update_sale
(lines 339-352). -/
def mkUpdSaleHeaderRow (sale0 : SaleRow) (u : SaleNewUpdate) : SaleRow :=
  let amount_cash := u.amount_cash.getD sale0.amount_cash
  let amount_upi := u.amount_upi.getD sale0.amount_upi
  let amount_card := u.amount_card.getD sale0.amount_card
  let amount_credit := u.amount_credit.getD sale0.amount_credit
  let total_paid := amount_cash + amount_upi + amount_card
  { sale0 with
    amount_cash := amount_cash
    amount_upi := amount_upi
    amount_card := amount_card
    amount_credit := amount_credit
    total_paid := total_paid
    balance_due := sale0.net_amount - total_paid }

/-- PUT /sales/{sale_id} (update_sale, app/routers/sales.py lines 219-393).
When the request sets a non-empty items list (Python truthiness on line 251),
the items are replaced and all totals recomputed; otherwise only the payment
amounts and their derived totals are recomputed from the merged values. -/
def update_sale (db : SalesDB) (sid : Nat) (u : SaleNewUpdate) :
    SalesDB × Except Nat SaleRow :=
  match db.sales.find? (fun s => decide (s.id = sid)) with
  | none => (db, .error 404)
  | some sale0 =>
    match u.items with
    | some (i0 :: irest) =>
      let items := i0 :: irest
      if variantsMissing db items then (db, .error 404)
      else
        match processSaleItems db items with
        | .error st => (db, .error st)
        | .ok itemsData =>
          let sale2 := applyHeaderUpdates (mkUpdSaleItemsRow sale0 u itemsData) u
          let db2 : SalesDB := { db with
            sales := db.sales.map (fun s => if s.id = sid then sale2 else s)
            saleItems := db.saleItems.filter (fun it => !decide (it.sale_id = sid)) ++
              itemsData.map (saleItemRowOf sid) }
          (db2, .ok sale2)
    | _ =>
      let sale2 := applyHeaderUpdates (mkUpdSaleHeaderRow sale0 u) u
      let db2 : SalesDB := { db with
        sales := db.sales.map (fun s => if s.id = sid then sale2 else s) }
      (db2, .ok sale2)

/-! ## Purchases (app/routers/purchases.py, app/models.py Purchase,
PurchaseItem, InventoryMovement) -/

/-- PurchaseItemCreate (app/schemas.py lines 471-477). -/
structure PurchaseItemCreate where
  raw_material_id : Option Nat
  description : Option (List Char)
  quantity : ℚ
  unit : List Char
  price_per_unit : ℚ
  gst_rate : Option ℚ
deriving DecidableEq, Repr

/-- PurchaseCreate (app/schemas.py lines 496-506). -/
structure PurchaseCreate where
  invoice_number : Option (List Char)
  invoice_date : PDate
  vendor_id : Nat
  purchase_category : Option (List Char)
  items : List PurchaseItemCreate
  amount_cash : ℚ
  amount_upi : ℚ
  amount_card : ℚ
  amount_credit : ℚ
  notes : Option (List Char)
deriving Repr

/-- A row of purchases (app/models.py lines 153-169). -/
structure PurchaseRow where
  id : Nat
  invoice_number : Option (List Char)
  invoice_date : PDate
  vendor_id : Nat
  purchase_category : Option (List Char)
  total_amount : ℚ
  amount_cash : ℚ
  amount_upi : ℚ
  amount_card : ℚ
  amount_credit : ℚ
  total_paid : ℚ
  balance_due : ℚ
  notes : Option (List Char)
deriving DecidableEq, Repr, Inhabited

/-- A row of purchase_items (app/models.py lines 176-189). -/
structure PurchaseItemRow where
  purchase_id : Nat
  raw_material_id : Option Nat
  description : Option (List Char)
  quantity : ℚ
  unit : List Char
  price_per_unit : ℚ
  line_total : ℚ
  gst_rate : ℚ
  gst_amount : ℚ
  taxable_value : ℚ
deriving DecidableEq, Repr

/-- A row of inventory_movements (app/models.py lines 368-381), restricted to
the columns the purchases router writes and filters on. -/
structure InvMovement where
  item_type : List Char
  item_id : Nat
  quantity_change : ℚ
  unit : List Char
  cost_per_unit : ℚ
  total_cost : ℚ
  reference_type : List Char
  reference_id : Nat
deriving DecidableEq, Repr

/-- The tables touched by the purchases router. -/
structure PurchDB where
  vendors : List Nat
  rawMaterials : List Nat
  purchases : List PurchaseRow
  purchaseItems : List PurchaseItemRow
  movements : List InvMovement
  nextId : Nat
deriving Repr

/-- The line-total and GST-extraction computation of the item loop in
create_purchase (lines 69-99): GST is assumed included in the price, and the
gst_rate is Python-truthy-defaulted (None and 0 both give 0). -/
def mkPurchaseItem (pid : Nat) (item : PurchaseItemCreate) : PurchaseItemRow :=
  let qty := item.quantity
  let price := item.price_per_unit
  let gst_rate := match item.gst_rate with
    | some g => if g ≠ 0 then g else 0
    | none => 0
  let line_total := qty * price
  let taxable_value := if 0 < gst_rate then line_total / (1 + gst_rate / 100) else line_total
  let gst_amount := if 0 < gst_rate then line_total - taxable_value else 0
  { purchase_id := pid
    raw_material_id := item.raw_material_id
    description := item.description
    quantity := qty
    unit := item.unit
    price_per_unit := price
    line_total := line_total
    gst_rate := gst_rate
    gst_amount := gst_amount
    taxable_value := taxable_value }

/-- The raw-material validation of the item loop (lines 58-67). -/
def purchaseItemsValid (db : PurchDB) (items : List PurchaseItemCreate) : Bool :=
  items.all (fun item =>
    match item.raw_material_id with
    | some r => db.rawMaterials.contains r
    | none => true)

/-- The inventory movement written for a raw-material purchase item
(create_purchase lines 136-148). -/
def movementOf (pid : Nat) (pi : PurchaseItemRow) (r : Nat) : InvMovement :=
  { item_type := "raw_material".toList
    item_id := r
    quantity_change := pi.quantity
    unit := pi.unit
    cost_per_unit := pi.price_per_unit
    total_cost := pi.line_total
    reference_type := "purchase".toList
    reference_id := pid }

/-- The movements created for a purchase: one per item that references a raw
material. -/
def movementsOf (pid : Nat) (rows : List PurchaseItemRow) : List InvMovement :=
  rows.filterMap (fun pi => pi.raw_material_id.map (movementOf pid pi))

/-- The Purchase record constructed on lines 112-125. -/
def mkPurchaseRow (db : PurchDB) (data : PurchaseCreate) (rows : List PurchaseItemRow) :
    PurchaseRow :=
  let total_amount := (rows.map (·.line_total)).sum
  let total_paid := data.amount_cash + data.amount_upi + data.amount_card
  { id := db.nextId
    invoice_number := data.invoice_number
    invoice_date := data.invoice_date
    vendor_id := data.vendor_id
    purchase_category := data.purchase_category
    total_amount := total_amount
    amount_cash := data.amount_cash
    amount_upi := data.amount_upi
    amount_card := data.amount_card
    amount_credit := data.amount_credit
    total_paid := total_paid
    balance_due := total_amount - total_paid + data.amount_credit
    notes := data.notes }

/-- POST /purchases (create_purchase, app/routers/purchases.py lines 21-165):
validation, totals, the purchase and item inserts, and one stock-IN inventory
movement per raw-material item. -/
def create_purchase (db : PurchDB) (data : PurchaseCreate) :
    PurchDB × Except Nat PurchaseRow :=
  if data.items.isEmpty then (db, .error 400)
  else if !db.vendors.contains data.vendor_id then (db, .error 404)
  else if !purchaseItemsValid db data.items then (db, .error 404)
  else
    let rows := data.items.map (mkPurchaseItem db.nextId)
    let purchase := mkPurchaseRow db data rows
    let db2 : PurchDB := { db with
      purchases := db.purchases ++ [purchase]
      purchaseItems := db.purchaseItems ++ rows
      movements := db.movements ++ movementsOf db.nextId rows
      nextId := db.nextId + 1 }
    (db2, .ok purchase)

/-- PUT /purchases/{purchase_id} (update_purchase, lines 227-396): reverse the
existing movements, replace the items, and recompute totals exactly as create
does. -/
def update_purchase (db : PurchDB) (pid : Nat) (data : PurchaseCreate) :
    PurchDB × Except Nat PurchaseRow :=
  match db.purchases.find? (fun p => decide (p.id = pid)) with
  | none => (db, .error 404)
  | some purchase0 =>
    if data.items.isEmpty then (db, .error 400)
    else
      let oldItems := db.purchaseItems.filter (fun it => decide (it.purchase_id = pid))
      let oldRawIds := oldItems.filterMap (·.raw_material_id)
      let movements1 := db.movements.filter (fun m =>
        !(m.reference_type == "purchase".toList && decide (m.reference_id = pid) &&
          m.item_type == "raw_material".toList && oldRawIds.contains m.item_id))
      if !db.vendors.contains data.vendor_id then (db, .error 404)
      else if !purchaseItemsValid db data.items then (db, .error 404)
      else
        let rows := data.items.map (mkPurchaseItem pid)
        let total_amount := (rows.map (·.line_total)).sum
        let total_paid := data.amount_cash + data.amount_upi + data.amount_card
        let purchase1 := { purchase0 with
          invoice_number := data.invoice_number
          invoice_date := data.invoice_date
          vendor_id := data.vendor_id
          purchase_category := data.purchase_category
          total_amount := total_amount
          amount_cash := data.amount_cash
          amount_upi := data.amount_upi
          amount_card := data.amount_card
          amount_credit := data.amount_credit
          total_paid := total_paid
          balance_due := total_amount - total_paid + data.amount_credit
          notes := data.notes }
        let db2 : PurchDB := { db with
          purchases := db.purchases.map (fun p => if p.id = pid then purchase1 else p)
          purchaseItems :=
            db.purchaseItems.filter (fun it => !decide (it.purchase_id = pid)) ++ rows
          movements := movements1 ++ movementsOf pid rows }
        (db2, .ok purchase1)

/-- DELETE /purchases/{purchase_id} (delete_purchase, lines 399-452): delete
the movements matched per raw-material item, then the purchase and (via
cascade) its items. -/
def delete_purchase (db : PurchDB) (pid : Nat) : PurchDB × Except Nat Unit :=
  match db.purchases.find? (fun p => decide (p.id = pid)) with
  | none => (db, .error 404)
  | some _ =>
    let items := db.purchaseItems.filter (fun it => decide (it.purchase_id = pid))
    let rawIds := items.filterMap (·.raw_material_id)
    let db2 : PurchDB := { db with
      movements := db.movements.filter (fun m =>
        !(m.reference_type == "purchase".toList && decide (m.reference_id = pid) &&
          m.item_type == "raw_material".toList && rawIds.contains m.item_id))
      purchases := db.purchases.filter (fun p => !decide (p.id = pid))
      purchaseItems := db.purchaseItems.filter (fun it => !decide (it.purchase_id = pid)) }
    (db2, .ok ())

/-! ## Expenses (app/routers/expenses.py, app/models.py Expense) -/

/-- ExpenseCreate (app/schemas.py lines 537-546), plus the
expense_subcategory_id field. Modelled from the spec: create_expense and
update_expense read expense_data.expense_subcategory_id (router lines 86 and
377) but the field is missing from the snapshot's schemas.py; the router's
fallback code makes the intended optional subcategory reference clear. -/
structure ExpenseCreateReq where
  date : PDate
  name : List Char
  description : Option (List Char)
  expense_category_id : Option Nat
  expense_subcategory_id : Option Nat
  vendor_id : Option Nat
  amount_cash : ℚ
  amount_upi : ℚ
  amount_card : ℚ
  amount_credit : ℚ
deriving Repr

/-- A row of expenses (app/models.py lines 201-217), plus the
expense_subcategory_id column the router writes when it exists (the alembic
revision 2025_12_09_add_expense_subcategories adds it). -/
structure ExpenseRow where
  id : Nat
  date : PDate
  name : List Char
  description : Option (List Char)
  expense_category_id : Option Nat
  expense_subcategory_id : Option Nat
  vendor_id : Option Nat
  amount_cash : ℚ
  amount_upi : ℚ
  amount_card : ℚ
  amount_credit : ℚ
  total_amount : ℚ
  total_paid : ℚ
  balance_due : ℚ
deriving DecidableEq, Repr, Inhabited

/-- The tables touched by the expenses router. -/
structure ExpDB where
  categories : List Nat
  vendors : List Nat
  expenses : List ExpenseRow
  nextId : Nat
deriving Repr

/-- The totals computed by create_expense (lines 70-77) and update_expense
(lines 361-368): total = all four amounts, paid = cash+upi+card, balance =
the credit amount. -/
def mkExpenseRow (eid : Nat) (d : ExpenseCreateReq) : ExpenseRow :=
  let total_amount := d.amount_cash + d.amount_upi + d.amount_card + d.amount_credit
  let total_paid := d.amount_cash + d.amount_upi + d.amount_card
  { id := eid
    date := d.date
    name := d.name
    description := d.description
    expense_category_id := d.expense_category_id
    expense_subcategory_id := d.expense_subcategory_id
    vendor_id := d.vendor_id
    amount_cash := d.amount_cash
    amount_upi := d.amount_upi
    amount_card := d.amount_card
    amount_credit := d.amount_credit
    total_amount := total_amount
    total_paid := total_paid
    balance_due := d.amount_credit }

/-- The category and vendor validation shared by create_expense (lines 45-67)
and update_expense (lines 336-358). -/
def expenseRefsValid (db : ExpDB) (d : ExpenseCreateReq) : Bool :=
  (match d.expense_category_id with
   | some c => db.categories.contains c
   | none => true) &&
  (match d.vendor_id with
   | some v => db.vendors.contains v
   | none => true)

/-- POST /expenses (create_expense, app/routers/expenses.py lines 31-167).
The missing-column fallback (lines 100-157) inserts the same computed values
through raw SQL, so the stored amounts are identical on both paths. -/
def create_expense (db : ExpDB) (d : ExpenseCreateReq) :
    ExpDB × Except Nat ExpenseRow :=
  if !expenseRefsValid db d then (db, .error 404)
  else
    let row := mkExpenseRow db.nextId d
    ({ db with expenses := db.expenses ++ [row], nextId := db.nextId + 1 }, .ok row)

/-- PUT /expenses/{expense_id} (update_expense, lines 314-463): 404 when the
id is unknown, otherwise every stored field is overwritten from the request
and the three totals recomputed (the raw-SQL fallback writes the same
values). -/
def update_expense (db : ExpDB) (eid : Nat) (d : ExpenseCreateReq) :
    ExpDB × Except Nat ExpenseRow :=
  match db.expenses.find? (fun e => decide (e.id = eid)) with
  | none => (db, .error 404)
  | some _ =>
    if !expenseRefsValid db d then (db, .error 404)
    else
      let row := mkExpenseRow eid d
      ({ db with expenses := db.expenses.map (fun e => if e.id = eid then row else e) },
       .ok row)

/-! ### GET /expenses (list_expenses, lines 170-289) -/

/-- A dynamically typed column value of a raw-SQL expense row, as the
serialization loop sees it: a date, a string, a number (anything float()
accepts), None, or a malformed value on which isoformat()/float() raises. -/
inductive PVal where
  | vdate (d : PDate)
  | vstr (s : List Char)
  | vnum (q : ℚ)
  | vnull
  | vbad
deriving DecidableEq, Repr

/-- Python truthiness of a column value. -/
def PVal.truthy : PVal → Bool
  | .vdate _ => true
  | .vstr s => !s.isEmpty
  | .vnum q => decide (q ≠ 0)
  | .vnull => false
  | .vbad => true

/-- value.isoformat(): defined on dates, raises otherwise. -/
def PVal.isoformat : PVal → Except Unit PDate
  | .vdate d => .ok d
  | _ => .error ()

/-- float(value): defined on numbers, raises otherwise. -/
def PVal.toFloat : PVal → Except Unit ℚ
  | .vnum q => .ok q
  | _ => .error ()

/-- str(value): total. -/
def PVal.toStr : PVal → List Char
  | .vstr s => s
  | _ => []

/-- One raw SQL row of the expenses query (columns in SELECT order, lines
207-215). -/
structure ExpSqlRow where
  c_id : PVal
  c_date : PVal
  c_name : PVal
  c_description : PVal
  c_category : PVal
  c_subcategory : PVal
  c_vendor : PVal
  c_cash : PVal
  c_upi : PVal
  c_card : PVal
  c_credit : PVal
  c_total : PVal
  c_paid : PVal
  c_balance : PVal
  c_created : PVal
deriving Repr

/-- The dictionary built for one row (lines 222-238). -/
structure ExpenseDict where
  d_id : Option (List Char)
  d_date : Option PDate
  d_name : List Char
  d_description : Option (List Char)
  d_category : Option (List Char)
  d_subcategory : Option (List Char)
  d_vendor : Option (List Char)
  d_cash : ℚ
  d_upi : ℚ
  d_card : ℚ
  d_credit : ℚ
  d_total : ℚ
  d_paid : ℚ
  d_balance : ℚ
  d_created : Option PDate
deriving Repr

/-- guarded str(): value if truthy else None (e.g. line 223). -/
def serStrOpt (v : PVal) : Option (List Char) :=
  if v.truthy then some v.toStr else none

/-- guarded isoformat(): may raise (e.g. line 224). -/
def serDateOpt (v : PVal) : Except Unit (Option PDate) :=
  if v.truthy then (v.isoformat).map some else .ok none

/-- guarded float(): 0.0 when the column is NULL, may raise otherwise
(e.g. line 230). -/
def serFloat (v : PVal) : Except Unit ℚ :=
  match v with
  | .vnull => .ok 0
  | w => w.toFloat

/-- The expense_dict construction for one row of the primary query (lines
222-238); any exception makes the loop skip the row. -/
def serializeExpRow (sub : Bool) (r : ExpSqlRow) : Except Unit ExpenseDict := do
  let ddate ← serDateOpt r.c_date
  let dcash ← serFloat r.c_cash
  let dupi ← serFloat r.c_upi
  let dcard ← serFloat r.c_card
  let dcredit ← serFloat r.c_credit
  let dtotal ← serFloat r.c_total
  let dpaid ← serFloat r.c_paid
  let dbalance ← serFloat r.c_balance
  let dcreated ← serDateOpt r.c_created
  .ok { d_id := serStrOpt r.c_id
        d_date := ddate
        d_name := if r.c_name.truthy then r.c_name.toStr else []
        d_description := serStrOpt r.c_description
        d_category := serStrOpt r.c_category
        d_subcategory := if sub then serStrOpt r.c_subcategory else none
        d_vendor := serStrOpt r.c_vendor
        d_cash := dcash
        d_upi := dupi
        d_card := dcard
        d_credit := dcredit
        d_total := dtotal
        d_paid := dpaid
        d_balance := dbalance
        d_created := dcreated }

/-- The outcome of one raw-SQL SELECT as the except clauses distinguish it:
rows, an OperationalError/ProgrammingError matching the missing-column text
(handled by the fallback), or any other exception. -/
inductive QueryOutcome where
  | rows (rs : List ExpSqlRow)
  | colErr
  | otherErr
deriving Repr

/-- GET /expenses (list_expenses, lines 170-289): the primary query, the
missing-column fallback query, per-row serialization with a continue on
failure, and the outer handler that answers an empty JSON list on any other
exception. The response status is the FastAPI default 200 in every branch. -/
def list_expenses (q1 q2 : QueryOutcome) : Nat × List ExpenseDict :=
  match q1 with
  | .rows rs =>
    (200, rs.filterMap (fun r => (serializeExpRow true r).toOption))
  | .colErr =>
    match q2 with
    | .rows rs =>
      (200, rs.filterMap (fun r => (serializeExpRow false r).toOption))
    | .colErr => (200, [])
    | .otherErr => (200, [])
  | .otherErr => (200, [])

/-! ### Helper lemmas about the sales embedding -/

lemma create_sale_ok {db : SalesDB} {req fault db2 sale}
    (h : create_sale db req fault = (db2, .ok sale)) :
    ∃ itemsData, processSaleItems db req.items = .ok itemsData ∧
      fault = none ∧
      sale = mkSaleRow db req itemsData ∧
      db2 = { db with
        sales := db.sales ++ [mkSaleRow db req itemsData]
        saleItems := db.saleItems ++ itemsData.map (saleItemRowOf db.nextId)
        nextId := db.nextId + 1 } := by
  unfold create_sale at h
  split at h
  · exact absurd h (by simp)
  · split at h
    · exact absurd h (by simp)
    · split at h
      · exact absurd h (by simp)
      · cases hm : processSaleItems db req.items with
        | error st => rw [hm] at h; exact absurd h (by simp)
        | ok itemsData =>
          rw [hm] at h
          match fault, h with
          | none, h =>
            injection h with h1 h2
            injection h2 with h2
            exact ⟨itemsData, rfl, rfl, h2.symm, h1.symm⟩
          | some .beforeCommit, h => exact absurd h (by simp)
          | some .afterCommit, h => exact absurd h (by simp)

lemma processSaleItems_mem {db : SalesDB} {items itemsData}
    (h : processSaleItems db items = .ok itemsData) :
    ∀ d ∈ itemsData, ∃ it ∈ items, processSaleItem db it = .ok d := by
  induction items generalizing itemsData with
  | nil =>
    cases h
    intro d hd
    exact absurd hd (by simp)
  | cons it rest ih =>
    unfold processSaleItems at h
    cases h1 : processSaleItem db it with
    | error st => rw [h1] at h; exact absurd h (by simp)
    | ok d0 =>
      rw [h1] at h
      cases h2 : processSaleItems db rest with
      | error st => rw [h2] at h; exact absurd h (by simp)
      | ok ds =>
        rw [h2] at h
        injection h with h
        subst h
        intro d hd
        rcases List.mem_cons.mp hd with rfl | hmem
        · exact ⟨it, List.mem_cons_self it rest, h1⟩
        · obtain ⟨it2, hit2, hp⟩ := ih h2 d hmem
          exact ⟨it2, List.mem_cons_of_mem it hit2, hp⟩

/-- The per-item arithmetic relations of the item loop. -/
lemma processSaleItem_fields {db : SalesDB} {it d}
    (h : processSaleItem db it = .ok d) :
    d.taxable_value = d.unit_price * d.quantity ∧
    d.gst_amount = d.taxable_value * d.gst_rate / 100 := by
  unfold processSaleItem at h
  cases hv : findVariant db it.product_variant_id with
  | none => rw [hv] at h; exact absurd h (by simp)
  | some v =>
    rw [hv] at h
    dsimp only at h
    split at h
    · exact absurd h (by simp)
    · cases hp : findProduct db v.product_id with
      | none => rw [hp] at h; exact absurd h (by simp)
      | some p =>
        rw [hp] at h
        dsimp only at h
        injection h with h
        subst h
        refine ⟨rfl, ?_⟩
        show (if 0 < get_gst_rate_from_hsn (some p.hsn_code) then
          pyPrice v * it.quantity * (get_gst_rate_from_hsn (some p.hsn_code) / 100)
          else 0) = pyPrice v * it.quantity * (get_gst_rate_from_hsn (some p.hsn_code)) / 100
        rcases lt_or_eq_of_le (gst_rate_nonneg (some p.hsn_code)) with hlt | heq
        · rw [if_pos hlt]; ring
        · rw [if_neg (by rw [← heq]; exact lt_irrefl 0), ← heq]; ring

/-- applyHeaderUpdates never touches the payment amounts, total_paid, the
id, total_amount or tax_amount. -/
lemma applyHeaderUpdates_payments (s : SaleRow) (u : SaleNewUpdate) :
    (applyHeaderUpdates s u).id = s.id ∧
    (applyHeaderUpdates s u).total_paid = s.total_paid ∧
    (applyHeaderUpdates s u).amount_cash = s.amount_cash ∧
    (applyHeaderUpdates s u).amount_upi = s.amount_upi ∧
    (applyHeaderUpdates s u).amount_card = s.amount_card ∧
    (applyHeaderUpdates s u).amount_credit = s.amount_credit ∧
    (applyHeaderUpdates s u).total_amount = s.total_amount ∧
    (applyHeaderUpdates s u).tax_amount = s.tax_amount := by
  unfold applyHeaderUpdates
  repeat' split
  all_goals simp

/-- When the request sets the items key, applyHeaderUpdates also leaves
net_amount, discount_amount and balance_due unchanged. -/
lemma applyHeaderUpdates_net_of_items (s : SaleRow) (u : SaleNewUpdate)
    (hi : u.items ≠ none) :
    (applyHeaderUpdates s u).net_amount = s.net_amount ∧
    (applyHeaderUpdates s u).discount_amount = s.discount_amount ∧
    (applyHeaderUpdates s u).balance_due = s.balance_due := by
  unfold applyHeaderUpdates
  repeat' split
  all_goals simp_all

lemma update_sale_ok {db : SalesDB} {sid u db2 sale}
    (h : update_sale db sid u = (db2, .ok sale)) :
    ∃ sale0, db.sales.find? (fun s => decide (s.id = sid)) = some sale0 ∧
      ((∃ i0 irest itemsData, u.items = some (i0 :: irest) ∧
          processSaleItems db (i0 :: irest) = .ok itemsData ∧
          sale = applyHeaderUpdates (mkUpdSaleItemsRow sale0 u itemsData) u ∧
          db2.saleItems = db.saleItems.filter (fun it => !decide (it.sale_id = sid)) ++
            itemsData.map (saleItemRowOf sid)) ∨
        ((u.items = none ∨ u.items = some []) ∧
          sale = applyHeaderUpdates (mkUpdSaleHeaderRow sale0 u) u ∧
          db2.saleItems = db.saleItems)) := by
  unfold update_sale at h
  cases hf : db.sales.find? (fun s => decide (s.id = sid)) with
  | none => rw [hf] at h; exact absurd h (by simp)
  | some sale0 =>
    rw [hf] at h
    dsimp only at h
    refine ⟨sale0, rfl, ?_⟩
    cases hi : u.items with
    | none =>
      rw [hi] at h
      dsimp only at h
      injection h with h1 h2
      injection h2 with h2
      exact Or.inr ⟨Or.inl rfl, h2.symm, by rw [← h1]⟩
    | some l =>
      cases l with
      | nil =>
        rw [hi] at h
        dsimp only at h
        injection h with h1 h2
        injection h2 with h2
        exact Or.inr ⟨Or.inr rfl, h2.symm, by rw [← h1]⟩
      | cons i0 irest =>
        rw [hi] at h
        dsimp only at h
        split at h
        · exact absurd h (by simp)
        · cases hm : processSaleItems db (i0 :: irest) with
          | error st => rw [hm] at h; exact absurd h (by simp)
          | ok itemsData =>
            rw [hm] at h
            dsimp only at h
            injection h with h1 h2
            injection h2 with h2
            exact Or.inl ⟨i0, irest, itemsData, rfl, hm, h2.symm, by rw [← h1]⟩

/-- C3: every row written by the six create/update endpoints for sales,
purchases and expenses satisfies total_paid = amount_cash + amount_upi +
amount_card; amount_credit is never counted as paid. -/
theorem C3_total_paid_cash_upi_card :
    (∀ db req fault db2 sale, create_sale db req fault = (db2, .ok sale) →
      sale.total_paid = sale.amount_cash + sale.amount_upi + sale.amount_card) ∧
    (∀ db sid u db2 sale, update_sale db sid u = (db2, .ok sale) →
      sale.total_paid = sale.amount_cash + sale.amount_upi + sale.amount_card) ∧
    (∀ db data db2 p, create_purchase db data = (db2, .ok p) →
      p.total_paid = p.amount_cash + p.amount_upi + p.amount_card) ∧
    (∀ db pid data db2 p, update_purchase db pid data = (db2, .ok p) →
      p.total_paid = p.amount_cash + p.amount_upi + p.amount_card) ∧
    (∀ db d db2 e, create_expense db d = (db2, .ok e) →
      e.total_paid = e.amount_cash + e.amount_upi + e.amount_card) ∧
    (∀ db eid d db2 e, update_expense db eid d = (db2, .ok e) →
      e.total_paid = e.amount_cash + e.amount_upi + e.amount_card) := by
  refine ⟨?_, ?_, ?_, ?_, ?_, ?_⟩
  · intro db req fault db2 sale h
    obtain ⟨itemsData, -, -, hs, -⟩ := create_sale_ok h
    subst hs
    rfl
  · intro db sid u db2 sale h
    obtain ⟨sale0, -, hcase⟩ := update_sale_ok h
    rcases hcase with ⟨i0, irest, itemsData, -, -, hs, -⟩ | ⟨-, hs, -⟩ <;> subst hs
    · obtain ⟨-, hp, hc, hu2, hk, -, -, -⟩ :=
        applyHeaderUpdates_payments (mkUpdSaleItemsRow sale0 u itemsData) u
      rw [hp, hc, hu2, hk]
      rfl
    · obtain ⟨-, hp, hc, hu2, hk, -, -, -⟩ :=
        applyHeaderUpdates_payments (mkUpdSaleHeaderRow sale0 u) u
      rw [hp, hc, hu2, hk]
      rfl
  · intro db data db2 p h
    unfold create_purchase at h
    split at h
    · exact absurd h (by simp)
    · split at h
      · exact absurd h (by simp)
      · split at h
        · exact absurd h (by simp)
        · injection h with h1 h2
          injection h2 with h2
          subst h2
          rfl
  · intro db pid data db2 p h
    unfold update_purchase at h
    cases hf : db.purchases.find? (fun q => decide (q.id = pid)) with
    | none => rw [hf] at h; exact absurd h (by simp)
    | some purchase0 =>
      rw [hf] at h
      dsimp only at h
      split at h
      · exact absurd h (by simp)
      · split at h
        · exact absurd h (by simp)
        · split at h
          · exact absurd h (by simp)
          · injection h with h1 h2
            injection h2 with h2
            subst h2
            rfl
  · intro db d db2 e h
    unfold create_expense at h
    split at h
    · exact absurd h (by simp)
    · injection h with h1 h2
      injection h2 with h2
      subst h2
      rfl
  · intro db eid d db2 e h
    unfold update_expense at h
    cases hf : db.expenses.find? (fun x => decide (x.id = eid)) with
    | none => rw [hf] at h; exact absurd h (by simp)
    | some e0 =>
      rw [hf] at h
      dsimp only at h
      split at h
      · exact absurd h (by simp)
      · injection h with h1 h2
        injection h2 with h2
        subst h2
        rfl

/-! ### Concrete states and requests for witnesses and counterexamples -/

/-- One product with HSN 1507 (5 percent GST) and one active priced variant. -/
def salesDB1 : SalesDB :=
  { products := [⟨1, "1507".toList⟩]
    variants := [⟨10, 1, "1L".toList, none, some 100, true⟩]
    sales := []
    saleItems := []
    nextId := 0 }

/-- A valid sale request: two units of variant 10, 100 paid in cash, 50 on
credit, no invoice number supplied. -/
def saleReq1 : SaleNewCreate :=
  { invoice_number := none
    invoice_date := ⟨2025, 1, 5⟩
    invoice_time := none
    customer_id := none
    channel := some "store".toList
    items := [⟨10, 2⟩]
    discount_amount := 0
    amount_cash := 100
    amount_upi := 0
    amount_card := 0
    amount_credit := 50
    remarks := none }

/-- The same request with an explicit non-blank invoice number. -/
def saleReq2 : SaleNewCreate := { saleReq1 with invoice_number := some "ABC-1".toList }

/-- The same request with an empty item list. -/
def saleReqEmpty : SaleNewCreate := { saleReq1 with items := [] }

/-- The database after creating saleReq1. -/
def salesDB2 : SalesDB := (create_sale salesDB1 saleReq1 none).1

/-- An update request setting no field at all. -/
def updReq0 : SaleNewUpdate :=
  { invoice_number := none
    invoice_date := none
    invoice_time := none
    customer_id := none
    channel := none
    items := none
    discount_amount := none
    amount_cash := none
    amount_upi := none
    amount_card := none
    amount_credit := none
    remarks := none }

/-- An update request replacing the items with one unit of variant 10. -/
def updReqItems : SaleNewUpdate := { updReq0 with items := some [⟨10, 1⟩] }

/-- One vendor and one raw material. -/
def purchDB1 : PurchDB :=
  { vendors := [3]
    rawMaterials := [7]
    purchases := []
    purchaseItems := []
    movements := []
    nextId := 0 }

/-- A valid purchase: 4 kg of raw material 7 at 25, 40 cash and 60 credit. -/
def purchReq1 : PurchaseCreate :=
  { invoice_number := none
    invoice_date := ⟨2025, 1, 6⟩
    vendor_id := 3
    purchase_category := none
    items := [⟨some 7, none, 4, "kg".toList, 25, none⟩]
    amount_cash := 40
    amount_upi := 0
    amount_card := 0
    amount_credit := 60
    notes := none }

/-- The database after creating purchReq1. -/
def purchDB2 : PurchDB := (create_purchase purchDB1 purchReq1).1

/-- An empty expense database. -/
def expDB1 : ExpDB := { categories := [], vendors := [], expenses := [], nextId := 0 }

/-- A valid expense: 10 cash and 50 credit. -/
def expReq1 : ExpenseCreateReq :=
  { date := ⟨2025, 1, 3⟩
    name := "tea".toList
    description := none
    expense_category_id := none
    expense_subcategory_id := none
    vendor_id := none
    amount_cash := 10
    amount_upi := 0
    amount_card := 0
    amount_credit := 50 }

/-- The database after creating expReq1. -/
def expDB2 : ExpDB := (create_expense expDB1 expReq1).1

/-- Witness for C3_total_paid_cash_upi_card: all six endpoints applied at
concrete inputs. -/
theorem C3_total_paid_cash_upi_card_witness :
    (((create_sale salesDB1 saleReq1 none).2.toOption.getD default).total_paid =
      ((create_sale salesDB1 saleReq1 none).2.toOption.getD default).amount_cash +
      ((create_sale salesDB1 saleReq1 none).2.toOption.getD default).amount_upi +
      ((create_sale salesDB1 saleReq1 none).2.toOption.getD default).amount_card) ∧
    (((update_sale salesDB2 0 updReq0).2.toOption.getD default).total_paid =
      ((update_sale salesDB2 0 updReq0).2.toOption.getD default).amount_cash +
      ((update_sale salesDB2 0 updReq0).2.toOption.getD default).amount_upi +
      ((update_sale salesDB2 0 updReq0).2.toOption.getD default).amount_card) ∧
    (((create_purchase purchDB1 purchReq1).2.toOption.getD default).total_paid =
      ((create_purchase purchDB1 purchReq1).2.toOption.getD default).amount_cash +
      ((create_purchase purchDB1 purchReq1).2.toOption.getD default).amount_upi +
      ((create_purchase purchDB1 purchReq1).2.toOption.getD default).amount_card) ∧
    (((update_purchase purchDB2 0 purchReq1).2.toOption.getD default).total_paid =
      ((update_purchase purchDB2 0 purchReq1).2.toOption.getD default).amount_cash +
      ((update_purchase purchDB2 0 purchReq1).2.toOption.getD default).amount_upi +
      ((update_purchase purchDB2 0 purchReq1).2.toOption.getD default).amount_card) ∧
    (((create_expense expDB1 expReq1).2.toOption.getD default).total_paid =
      ((create_expense expDB1 expReq1).2.toOption.getD default).amount_cash +
      ((create_expense expDB1 expReq1).2.toOption.getD default).amount_upi +
      ((create_expense expDB1 expReq1).2.toOption.getD default).amount_card) ∧
    (((update_expense expDB2 0 expReq1).2.toOption.getD default).total_paid =
      ((update_expense expDB2 0 expReq1).2.toOption.getD default).amount_cash +
      ((update_expense expDB2 0 expReq1).2.toOption.getD default).amount_upi +
      ((update_expense expDB2 0 expReq1).2.toOption.getD default).amount_card) :=
  ⟨C3_total_paid_cash_upi_card.1 salesDB1 saleReq1 none
      (create_sale salesDB1 saleReq1 none).1
      ((create_sale salesDB1 saleReq1 none).2.toOption.getD default) rfl,
   C3_total_paid_cash_upi_card.2.1 salesDB2 0 updReq0
      (update_sale salesDB2 0 updReq0).1
      ((update_sale salesDB2 0 updReq0).2.toOption.getD default) rfl,
   C3_total_paid_cash_upi_card.2.2.1 purchDB1 purchReq1
      (create_purchase purchDB1 purchReq1).1
      ((create_purchase purchDB1 purchReq1).2.toOption.getD default) rfl,
   C3_total_paid_cash_upi_card.2.2.2.1 purchDB2 0 purchReq1
      (update_purchase purchDB2 0 purchReq1).1
      ((update_purchase purchDB2 0 purchReq1).2.toOption.getD default) rfl,
   C3_total_paid_cash_upi_card.2.2.2.2.1 expDB1 expReq1
      (create_expense expDB1 expReq1).1
      ((create_expense expDB1 expReq1).2.toOption.getD default) rfl,
   C3_total_paid_cash_upi_card.2.2.2.2.2 expDB2 0 expReq1
      (update_expense expDB2 0 expReq1).1
      ((update_expense expDB2 0 expReq1).2.toOption.getD default) rfl⟩

/-- C2 counterexample: an expense with 10 cash and 50 credit stores
balance_due = 50 (its amount_credit), while the claimed uniform formula
total - total_paid + credit would give (60 - 10) + 50 = 100; so the three
record types do not share the formula balance_due = total - total_paid +
amount_credit. -/
theorem C2_expense_breaks_uniform_formula :
    (create_expense expDB1 expReq1).2 = .ok (mkExpenseRow 0 expReq1) ∧
    ¬ ((mkExpenseRow 0 expReq1).balance_due =
        (mkExpenseRow 0 expReq1).total_amount - (mkExpenseRow 0 expReq1).total_paid +
        (mkExpenseRow 0 expReq1).amount_credit) := by
  refine ⟨rfl, ?_⟩
  intro h
  have h2 : (50 : ℚ) = (10 + 0 + 0 + 50) - (10 + 0 + 0) + 50 := h
  norm_num at h2

/-- C2 amended: each record type has its own stored balance_due formula:
sales store net_amount - total_paid (credit not added), purchases store
total_amount - total_paid + amount_credit, and expenses store amount_credit,
which for expenses also equals total_amount - total_paid because their
total_amount already includes the credit. -/
theorem C2_balance_due_formulas :
    (∀ db req fault db2 sale, create_sale db req fault = (db2, .ok sale) →
      sale.balance_due = sale.net_amount - sale.total_paid) ∧
    (∀ db data db2 p, create_purchase db data = (db2, .ok p) →
      p.balance_due = p.total_amount - p.total_paid + p.amount_credit) ∧
    (∀ db d db2 e, create_expense db d = (db2, .ok e) →
      e.balance_due = e.amount_credit ∧
      e.balance_due = e.total_amount - e.total_paid) := by
  refine ⟨?_, ?_, ?_⟩
  · intro db req fault db2 sale h
    obtain ⟨itemsData, -, -, hs, -⟩ := create_sale_ok h
    subst hs
    rfl
  · intro db data db2 p h
    unfold create_purchase at h
    split at h
    · exact absurd h (by simp)
    · split at h
      · exact absurd h (by simp)
      · split at h
        · exact absurd h (by simp)
        · injection h with h1 h2
          injection h2 with h2
          subst h2
          rfl
  · intro db d db2 e h
    unfold create_expense at h
    split at h
    · exact absurd h (by simp)
    · injection h with h1 h2
      injection h2 with h2
      subst h2
      refine ⟨rfl, ?_⟩
      show d.amount_credit =
        (d.amount_cash + d.amount_upi + d.amount_card + d.amount_credit) -
        (d.amount_cash + d.amount_upi + d.amount_card)
      ring

/-- Witness for C2_balance_due_formulas at concrete inputs. -/
theorem C2_balance_due_formulas_witness :
    (((create_sale salesDB1 saleReq1 none).2.toOption.getD default).balance_due =
      ((create_sale salesDB1 saleReq1 none).2.toOption.getD default).net_amount -
      ((create_sale salesDB1 saleReq1 none).2.toOption.getD default).total_paid) ∧
    (((create_purchase purchDB1 purchReq1).2.toOption.getD default).balance_due =
      ((create_purchase purchDB1 purchReq1).2.toOption.getD default).total_amount -
      ((create_purchase purchDB1 purchReq1).2.toOption.getD default).total_paid +
      ((create_purchase purchDB1 purchReq1).2.toOption.getD default).amount_credit) ∧
    (((create_expense expDB1 expReq1).2.toOption.getD default).balance_due =
      ((create_expense expDB1 expReq1).2.toOption.getD default).amount_credit) :=
  ⟨C2_balance_due_formulas.1 salesDB1 saleReq1 none
      (create_sale salesDB1 saleReq1 none).1
      ((create_sale salesDB1 saleReq1 none).2.toOption.getD default) rfl,
   C2_balance_due_formulas.2.1 purchDB1 purchReq1
      (create_purchase purchDB1 purchReq1).1
      ((create_purchase purchDB1 purchReq1).2.toOption.getD default) rfl,
   (C2_balance_due_formulas.2.2 expDB1 expReq1
      (create_expense expDB1 expReq1).1
      ((create_expense expDB1 expReq1).2.toOption.getD default) rfl).1⟩

lemma filter_eq_nil_of {α} {p : α → Bool} {l : List α}
    (h : ∀ a ∈ l, p a = false) : l.filter p = [] := by
  induction l with
  | nil => rfl
  | cons a rest ih =>
    simp only [List.filter, h a (List.mem_cons_self a rest)]
    exact ih (fun b hb => h b (List.mem_cons_of_mem a hb))

lemma filter_eq_self_of {α} {p : α → Bool} {l : List α}
    (h : ∀ a ∈ l, p a = true) : l.filter p = l := by
  induction l with
  | nil => rfl
  | cons a rest ih =>
    simp only [List.filter, h a (List.mem_cons_self a rest)]
    exact congrArg (a :: ·) (ih (fun b hb => h b (List.mem_cons_of_mem a hb)))

/-- What the claim states about a stored sale and its stored items. -/
def saleItemsConsistent (sale : SaleRow) (items : List SaleItemRow) : Prop :=
  sale.net_amount = (items.map (·.taxable_value)).sum +
    (items.map (·.gst_amount)).sum - sale.discount_amount ∧
  ∀ it ∈ items, it.taxable_value = it.unit_price * it.quantity ∧
    it.gst_amount = it.taxable_value * it.gst_rate / 100

lemma itemsData_rows_consistent {db : SalesDB} {items itemsData} (sid : Nat)
    (hm : processSaleItems db items = .ok itemsData) :
    ∀ it ∈ itemsData.map (saleItemRowOf sid),
      it.taxable_value = it.unit_price * it.quantity ∧
      it.gst_amount = it.taxable_value * it.gst_rate / 100 := by
  intro it hit
  obtain ⟨d, hd, rfl⟩ := List.mem_map.mp hit
  obtain ⟨it0, -, hp⟩ := processSaleItems_mem hm d hd
  obtain ⟨h1, h2⟩ := processSaleItem_fields hp
  exact ⟨h1, h2⟩

/-- C4: both create_sale and an update_sale carrying a non-empty item list
store a sale whose net_amount is the sum of the stored items' taxable values
plus their GST amounts minus the stored discount, with each stored item
satisfying taxable_value = unit_price * quantity and gst_amount =
taxable_value * gst_rate / 100. -/
theorem C4_net_amount_taxable_tax_discount :
    (∀ db req fault db2 sale,
      (∀ it ∈ db.saleItems, it.sale_id ≠ db.nextId) →
      create_sale db req fault = (db2, .ok sale) →
      saleItemsConsistent sale
        (db2.saleItems.filter (fun it => decide (it.sale_id = sale.id)))) ∧
    (∀ db sid u i0 irest db2 sale,
      u.items = some (i0 :: irest) →
      update_sale db sid u = (db2, .ok sale) →
      saleItemsConsistent sale
        (db2.saleItems.filter (fun it => decide (it.sale_id = sale.id)))) := by
  constructor
  · intro db req fault db2 sale hfresh h
    obtain ⟨itemsData, hm, -, hs, hdb⟩ := create_sale_ok h
    subst hs
    subst hdb
    have hid : (mkSaleRow db req itemsData).id = db.nextId := rfl
    have hstored :
        ((db.saleItems ++ itemsData.map (saleItemRowOf db.nextId)).filter
          (fun it => decide (it.sale_id = (mkSaleRow db req itemsData).id))) =
        itemsData.map (saleItemRowOf db.nextId) := by
      rw [hid, List.filter_append,
        filter_eq_nil_of (fun it hit => decide_eq_false (hfresh it hit)),
        filter_eq_self_of (fun it hit => ?_), List.nil_append]
      obtain ⟨d, -, rfl⟩ := List.mem_map.mp hit
      exact decide_eq_true rfl
    show saleItemsConsistent (mkSaleRow db req itemsData)
      ((db.saleItems ++ itemsData.map (saleItemRowOf db.nextId)).filter
        (fun it => decide (it.sale_id = (mkSaleRow db req itemsData).id)))
    rw [hstored]
    constructor
    · rw [List.map_map, List.map_map]
      rfl
    · exact itemsData_rows_consistent db.nextId hm
  · intro db sid u i0 irest db2 sale hu h
    obtain ⟨sale0, hf, hcase⟩ := update_sale_ok h
    rcases hcase with ⟨i0', irest', itemsData, hi', hm, hs, hdb⟩ | ⟨hni, -, -⟩
    · subst hs
      have hids : sale0.id = sid := by
        have := List.find?_some hf
        simpa using this
      have hidp := (applyHeaderUpdates_payments (mkUpdSaleItemsRow sale0 u itemsData) u).1
      have hid : (applyHeaderUpdates (mkUpdSaleItemsRow sale0 u itemsData) u).id = sid := by
        rw [hidp]; exact hids
      have hnet := applyHeaderUpdates_net_of_items (mkUpdSaleItemsRow sale0 u itemsData) u
        (by rw [hu]; exact fun hc => Option.noConfusion hc)
      have hstored : db2.saleItems.filter (fun it =>
          decide (it.sale_id = (applyHeaderUpdates (mkUpdSaleItemsRow sale0 u itemsData) u).id)) =
          itemsData.map (saleItemRowOf sid) := by
        rw [hid, hdb, List.filter_append,
          filter_eq_nil_of (fun it hit => ?_),
          filter_eq_self_of (fun it hit => ?_), List.nil_append]
        · obtain ⟨d, -, rfl⟩ := List.mem_map.mp hit
          exact decide_eq_true rfl
        · have h2 := (List.mem_filter.mp hit).2
          simp only [Bool.not_eq_true', decide_eq_false_iff_not] at h2
          exact decide_eq_false h2
      rw [hstored]
      constructor
      · rw [hnet.1, hnet.2.1, List.map_map, List.map_map]
        rfl
      · exact itemsData_rows_consistent sid hm
    · rcases hni with hni | hni <;> rw [hu] at hni <;> cases hni

/-- Witness for C4_net_amount_taxable_tax_discount: a concrete create and a
concrete item-replacing update. -/
theorem C4_net_amount_taxable_tax_discount_witness :
    saleItemsConsistent ((create_sale salesDB1 saleReq1 none).2.toOption.getD default)
      ((create_sale salesDB1 saleReq1 none).1.saleItems.filter
        (fun it => decide (it.sale_id =
          ((create_sale salesDB1 saleReq1 none).2.toOption.getD default).id))) ∧
    saleItemsConsistent ((update_sale salesDB2 0 updReqItems).2.toOption.getD default)
      ((update_sale salesDB2 0 updReqItems).1.saleItems.filter
        (fun it => decide (it.sale_id =
          ((update_sale salesDB2 0 updReqItems).2.toOption.getD default).id))) :=
  ⟨C4_net_amount_taxable_tax_discount.1 salesDB1 saleReq1 none
      (create_sale salesDB1 saleReq1 none).1
      ((create_sale salesDB1 saleReq1 none).2.toOption.getD default)
      (by decide) rfl,
   C4_net_amount_taxable_tax_discount.2 salesDB2 0 updReqItems ⟨10, 1⟩ []
      (update_sale salesDB2 0 updReqItems).1
      ((update_sale salesDB2 0 updReqItems).2.toOption.getD default)
      rfl rfl⟩

/-- C9: a sale created without an invoice number (absent or blank after
strip) stores INV-YYYYMMDD-NNN where NNN is the count of sales already stored
for the request's invoice date plus one, zero-padded to three digits; a
non-blank invoice number is stored unchanged. -/
theorem C9_invoice_number_generation :
    (∀ db req fault db2 sale, isBlankOpt req.invoice_number = true →
      create_sale db req fault = (db2, .ok sale) →
      sale.invoice_number = some ("INV-".toList ++ fmtYmd req.invoice_date ++
        "-".toList ++ zfill 3 (natDigits
          ((db.sales.filter (fun s =>
            decide (s.invoice_date = req.invoice_date))).length + 1)))) ∧
    (∀ db req fault db2 sale inv, req.invoice_number = some inv →
      isBlankOpt req.invoice_number = false →
      create_sale db req fault = (db2, .ok sale) →
      sale.invoice_number = some inv) := by
  constructor
  · intro db req fault db2 sale hblank h
    obtain ⟨itemsData, -, -, hs, -⟩ := create_sale_ok h
    subst hs
    show some (if isBlankOpt req.invoice_number then genInvoiceNumber db req.invoice_date
      else req.invoice_number.getD []) = _
    rw [hblank, if_pos rfl]
    rfl
  · intro db req fault db2 sale inv hinv hblank h
    obtain ⟨itemsData, -, -, hs, -⟩ := create_sale_ok h
    subst hs
    show some (if isBlankOpt req.invoice_number then genInvoiceNumber db req.invoice_date
      else req.invoice_number.getD []) = _
    rw [hblank, if_neg (by simp), hinv]
    rfl

/-- Witness for C9_invoice_number_generation: the blank case generates
INV-20250105-001 for an empty table, the non-blank case stores ABC-1. -/
theorem C9_invoice_number_generation_witness :
    ((create_sale salesDB1 saleReq1 none).2.toOption.getD default).invoice_number =
      some ("INV-".toList ++ fmtYmd saleReq1.invoice_date ++ "-".toList ++
        zfill 3 (natDigits ((salesDB1.sales.filter (fun s =>
          decide (s.invoice_date = saleReq1.invoice_date))).length + 1))) ∧
    ((create_sale salesDB1 saleReq2 none).2.toOption.getD default).invoice_number =
      some "ABC-1".toList :=
  ⟨C9_invoice_number_generation.1 salesDB1 saleReq1 none
      (create_sale salesDB1 saleReq1 none).1
      ((create_sale salesDB1 saleReq1 none).2.toOption.getD default) rfl rfl,
   C9_invoice_number_generation.2 salesDB1 saleReq2 none
      (create_sale salesDB1 saleReq2 none).1
      ((create_sale salesDB1 saleReq2 none).2.toOption.getD default)
      "ABC-1".toList rfl rfl rfl⟩

/-- C10 counterexample: a fault during the post-commit refresh is a non-HTTP
exception after validation; the handler answers HTTP 500, but the committed
Sale row stays persisted, so the stored state is not unchanged on error. -/
theorem C10_post_commit_fault_persists_sale :
    (create_sale salesDB1 saleReq1 (some .afterCommit)).2 = .error 500 ∧
    ((create_sale salesDB1 saleReq1 (some .afterCommit)).1).sales.length =
      salesDB1.sales.length + 1 :=
  ⟨rfl, rfl⟩

/-- C10 amended: an empty item list is rejected with HTTP 400 before any
database work, and a non-HTTP exception raised before the commit leaves the
stored state unchanged and produces an error response; only an exception
after the commit (see the counterexample) leaves the created rows behind. -/
theorem C10_create_sale_atomic_before_commit :
    (∀ db req fault, req.items = [] → create_sale db req fault = (db, .error 400)) ∧
    (∀ db req, (create_sale db req (some .beforeCommit)).1 = db ∧
      ∃ st, (create_sale db req (some .beforeCommit)).2 = .error st) := by
  constructor
  · intro db req fault hempty
    unfold create_sale
    rw [if_pos (by rw [hempty]; rfl)]
  · intro db req
    unfold create_sale
    split
    · exact ⟨rfl, 400, rfl⟩
    · split
      · exact ⟨rfl, 404, rfl⟩
      · split
        · exact ⟨rfl, 400, rfl⟩
        · cases hm : processSaleItems db req.items with
          | error st => exact ⟨rfl, st, rfl⟩
          | ok itemsData => exact ⟨rfl, 500, rfl⟩

/-- Witness for C10_create_sale_atomic_before_commit at concrete inputs. -/
theorem C10_create_sale_atomic_before_commit_witness :
    create_sale salesDB1 saleReqEmpty none = (salesDB1, .error 400) ∧
    (create_sale salesDB1 saleReq1 (some .beforeCommit)).1 = salesDB1 ∧
    (∃ st, (create_sale salesDB1 saleReq1 (some .beforeCommit)).2 = .error st) :=
  ⟨C10_create_sale_atomic_before_commit.1 salesDB1 saleReqEmpty none rfl,
   (C10_create_sale_atomic_before_commit.2 salesDB1 saleReq1).1,
   (C10_create_sale_atomic_before_commit.2 salesDB1 saleReq1).2⟩

/-- A raw row whose date column holds a value isoformat() rejects. -/
def expBadRow : ExpSqlRow :=
  { c_id := .vstr "e1".toList
    c_date := .vbad
    c_name := .vstr "rent".toList
    c_description := .vnull
    c_category := .vnull
    c_subcategory := .vnull
    c_vendor := .vnull
    c_cash := .vnum 5
    c_upi := .vnull
    c_card := .vnull
    c_credit := .vnull
    c_total := .vnum 5
    c_paid := .vnum 5
    c_balance := .vnum 0
    c_created := .vnull }

/-- C6: list_expenses always answers HTTP 200; any exception that escapes the
row loops (either query failing in a way the fallback does not absorb) turns
the body into an empty JSON list, a successful query serializes its rows, and
a row whose serialization raises is silently dropped from the body. -/
theorem C6_list_expenses_degrades_to_empty :
    (∀ q1 q2, (list_expenses q1 q2).1 = 200) ∧
    (∀ q2, (list_expenses .otherErr q2).2 = []) ∧
    (list_expenses .colErr .colErr).2 = [] ∧
    (list_expenses .colErr .otherErr).2 = [] ∧
    (∀ rs q2, (list_expenses (.rows rs) q2).2 =
      rs.filterMap (fun r => (serializeExpRow true r).toOption)) ∧
    (∀ rs, (list_expenses .colErr (.rows rs)).2 =
      rs.filterMap (fun r => (serializeExpRow false r).toOption)) ∧
    (∀ r rs q2, serializeExpRow true r = .error () →
      (list_expenses (.rows (r :: rs)) q2).2 = (list_expenses (.rows rs) q2).2) := by
  refine ⟨?_, ?_, rfl, rfl, ?_, ?_, ?_⟩
  · intro q1 q2
    cases q1 with
    | rows rs => rfl
    | colErr => cases q2 <;> rfl
    | otherErr => rfl
  · intro q2; rfl
  · intro rs q2; rfl
  · intro rs; rfl
  · intro r rs q2 h
    simp only [list_expenses, List.filterMap_cons, h, Except.toOption]

/-- Witness for C6_list_expenses_degrades_to_empty: a row with a malformed
date is skipped. -/
theorem C6_list_expenses_degrades_to_empty_witness :
    serializeExpRow true expBadRow = .error () ∧
    (list_expenses (.rows [expBadRow]) .colErr).2 =
      (list_expenses (.rows []) .colErr).2 :=
  ⟨rfl, C6_list_expenses_degrades_to_empty.2.2.2.2.2.2 expBadRow [] .colErr rfl⟩

/-! ### C8: purchase inventory movements -/

/-- A movement references the given purchase. -/
def refsPurchase (pid : Nat) (m : InvMovement) : Bool :=
  m.reference_type == "purchase".toList && decide (m.reference_id = pid)

lemma create_purchase_ok {db : PurchDB} {data db2 p}
    (h : create_purchase db data = (db2, .ok p)) :
    p = mkPurchaseRow db data (data.items.map (mkPurchaseItem db.nextId)) ∧
    db2 = { db with
      purchases := db.purchases ++
        [mkPurchaseRow db data (data.items.map (mkPurchaseItem db.nextId))]
      purchaseItems := db.purchaseItems ++ data.items.map (mkPurchaseItem db.nextId)
      movements := db.movements ++
        movementsOf db.nextId (data.items.map (mkPurchaseItem db.nextId))
      nextId := db.nextId + 1 } := by
  unfold create_purchase at h
  split at h
  · exact absurd h (by simp)
  · split at h
    · exact absurd h (by simp)
    · split at h
      · exact absurd h (by simp)
      · injection h with h1 h2
        injection h2 with h2
        exact ⟨h2.symm, h1.symm⟩

lemma mem_movementsOf {pid : Nat} {rows : List PurchaseItemRow} {m}
    (h : m ∈ movementsOf pid rows) :
    ∃ pi ∈ rows, ∃ r, pi.raw_material_id = some r ∧ m = movementOf pid pi r := by
  unfold movementsOf at h
  obtain ⟨pi, hpi, hmap⟩ := List.mem_filterMap.mp h
  cases hr : pi.raw_material_id with
  | none => rw [hr] at hmap; cases hmap
  | some r =>
    rw [hr] at hmap
    injection hmap with hmap
    exact ⟨pi, hpi, r, hr, hmap.symm⟩

lemma refsPurchase_movementOf (pid : Nat) (pi : PurchaseItemRow) (r : Nat) :
    refsPurchase pid (movementOf pid pi r) = true := by
  simp [refsPurchase, movementOf]

lemma movementsOf_items (pid : Nat) (items : List PurchaseItemCreate) :
    movementsOf pid (items.map (mkPurchaseItem pid)) =
    items.filterMap (fun item => item.raw_material_id.map (fun r =>
      { item_type := "raw_material".toList
        item_id := r
        quantity_change := item.quantity
        unit := item.unit
        cost_per_unit := item.price_per_unit
        total_cost := item.quantity * item.price_per_unit
        reference_type := "purchase".toList
        reference_id := pid : InvMovement })) := by
  unfold movementsOf
  rw [List.filterMap_map]
  rfl

/-- C8: creating a purchase writes exactly one stock-IN movement per
raw-material item, carrying that item's quantity, unit and cost and
referencing the new purchase; the quantities are positive for a valid
request; and deleting the purchase afterwards removes every movement that
references it. -/
theorem C8_purchase_movements_roundtrip :
    ∀ db data db2 p,
      (∀ m ∈ db.movements, refsPurchase db.nextId m = false) →
      (∀ it ∈ db.purchaseItems, it.purchase_id ≠ db.nextId) →
      (∀ item ∈ data.items, 0 < item.quantity) →
      create_purchase db data = (db2, .ok p) →
      (db2.movements.filter (refsPurchase p.id) =
        data.items.filterMap (fun item => item.raw_material_id.map (fun r =>
          { item_type := "raw_material".toList
            item_id := r
            quantity_change := item.quantity
            unit := item.unit
            cost_per_unit := item.price_per_unit
            total_cost := item.quantity * item.price_per_unit
            reference_type := "purchase".toList
            reference_id := p.id : InvMovement }))) ∧
      (∀ m ∈ db2.movements.filter (refsPurchase p.id), 0 < m.quantity_change) ∧
      (delete_purchase db2 p.id).2 = .ok () ∧
      ((delete_purchase db2 p.id).1).movements.filter (refsPurchase p.id) = [] := by
  intro db data db2 p hfreshM hfreshI hq h
  obtain ⟨hp, hdb⟩ := create_purchase_ok h
  have hpid : p.id = db.nextId := by rw [hp]; rfl
  set rows := data.items.map (mkPurchaseItem db.nextId) with hrows
  have hmovfilter : db2.movements.filter (refsPurchase p.id) =
      movementsOf db.nextId rows := by
    rw [hdb, hpid]
    show (db.movements ++ movementsOf db.nextId rows).filter
      (refsPurchase db.nextId) = movementsOf db.nextId rows
    rw [List.filter_append, filter_eq_nil_of hfreshM,
      filter_eq_self_of (fun m hm => ?_), List.nil_append]
    obtain ⟨pi, -, r, -, rfl⟩ := mem_movementsOf hm
    exact refsPurchase_movementOf db.nextId pi r
  have hrows_pid : ∀ pi ∈ rows, pi.purchase_id = db.nextId := by
    intro pi hpi
    obtain ⟨item, -, rfl⟩ := List.mem_map.mp hpi
    rfl
  refine ⟨?_, ?_, ?_⟩
  · rw [hmovfilter, hrows, movementsOf_items, hpid]
  · intro m hm
    rw [hmovfilter] at hm
    obtain ⟨pi, hpi, r, -, rfl⟩ := mem_movementsOf hm
    obtain ⟨item, hitem, rfl⟩ := List.mem_map.mp hpi
    exact hq item hitem
  · -- the delete after the create
    have hpmem : (mkPurchaseRow db data rows) ∈ db2.purchases := by
      rw [hdb]
      exact List.mem_append_right _ (List.mem_singleton.mpr rfl)
    cases hf : db2.purchases.find? (fun q => decide (q.id = p.id)) with
    | none =>
      exact absurd (List.find?_eq_none.mp hf _ hpmem)
        (by simp [hp, hpid])
    | some q0 =>
      have hitems : db2.purchaseItems.filter
          (fun it => decide (it.purchase_id = p.id)) = rows := by
        rw [hdb, hpid]
        show (db.purchaseItems ++ rows).filter
          (fun it => decide (it.purchase_id = db.nextId)) = rows
        rw [List.filter_append,
          filter_eq_nil_of (fun it hit => decide_eq_false (hfreshI it hit)),
          filter_eq_self_of (fun it hit => decide_eq_true (hrows_pid it hit)),
          List.nil_append]
      unfold delete_purchase
      rw [hf]
      refine ⟨rfl, ?_⟩
      rw [hitems]
      apply filter_eq_nil_of
      intro m hm
      have hm2 := List.mem_filter.mp hm
      cases hrp : refsPurchase p.id m with
      | false => rfl
      | true =>
        exfalso
        have hnotdel := hm2.2
        simp only [Bool.not_eq_true'] at hnotdel
        have hmem2 : m ∈ db2.movements := hm2.1
        have hmov : m ∈ movementsOf db.nextId rows := by
          rw [hdb] at hmem2
          rcases List.mem_append.mp hmem2 with hold | hnew
          · rw [hpid] at hrp
            exact absurd hrp (by rw [hfreshM m hold]; simp)
          · exact hnew
        obtain ⟨pi, hpi, r, hr, rfl⟩ := mem_movementsOf hmov
        have hrmem : r ∈ rows.filterMap (fun it => it.raw_material_id) :=
          List.mem_filterMap.mpr ⟨pi, hpi, by rw [hr]⟩
        have hcontains : (rows.filterMap (fun it => it.raw_material_id)).contains r = true :=
          List.elem_eq_true_of_mem hrmem
        rw [hpid] at hnotdel
        simp [movementOf, hcontains] at hnotdel
        exact hnotdel pi hpi hr

/-- Witness for C8_purchase_movements_roundtrip: create then delete a
concrete purchase and observe that no movement references it afterwards. -/
theorem C8_purchase_movements_roundtrip_witness :
    ((delete_purchase purchDB2
        ((create_purchase purchDB1 purchReq1).2.toOption.getD default).id).1).movements.filter
      (refsPurchase ((create_purchase purchDB1 purchReq1).2.toOption.getD default).id) = [] :=
  (C8_purchase_movements_roundtrip purchDB1 purchReq1 purchDB2
     ((create_purchase purchDB1 purchReq1).2.toOption.getD default)
     (by decide) (by decide) (by decide) rfl).2.2.2

end PureBorn

